import Mathlib

/-!
Shallow embedding of the RTCP reception core
(`webrtc/modules/rtp_rtcp/source/rtcp_receiver.cc`, given as
`src/unnamed/part_000`, together with its header `rtcp_receiver.h`).

Modelling conventions:
* `std::map<uint32_t, V>` is modelled as an association list
  `List (Nat × V)`; `mapInsert` mirrors `m[k] = v` (overwrite in place,
  else append), `mapErase` mirrors `m.erase(k)`.  Iteration order of
  `std::map` is irrelevant to every property proved here (maxima,
  membership, per-key lookups), so the association-list model is
  lookup-faithful.
* The `Clock` collaborator is modelled by passing its readings
  (`nowMs`, the NTP pair, and the compact-NTP value) explicitly; one
  snapshot is used for a whole datagram, matching the claims' "clock
  otherwise unchanged" setting.
* Out-parameters of fallible queries become `Option` results.
* Machine integers: `uint32_t` values are `Nat` with explicit `% 2^32`
  where wrap-around matters (`sub32`); `int64_t` values are `Int`.
* Observer callbacks are external collaborators and are not modelled;
  "no callback fires" is represented by the fact that the accumulated
  `RTCPPacketInformation` stays at its initial value and the function
  returns `false` before the dispatch phase.
-/

/-- `kRrTimeoutIntervals` from the source (rtcp_receiver.cc line 56). -/
def kRrTimeoutIntervals : Int := 3

/-- `kMaxWarningLogIntervalMs` from the source (rtcp_receiver.cc line 58). -/
def kMaxWarningLogIntervalMs : Int := 10000

/-- Modelled from the spec: `RTCP_INTERVAL_AUDIO_MS` is an environment
constant "supplied by the surrounding environment" (spec §6); the value
used by the surrounding WebRTC environment is 5000 ms. -/
def RTCP_INTERVAL_AUDIO_MS : Int := 5000

/-- Modelled from the spec: `RTCP_CNAME_SIZE` is an environment constant
(spec §6); the CNAME slot keeps at most `RTCP_CNAME_SIZE - 1` bytes of
content with a guaranteed null terminator (spec §4.5). -/
def RTCP_CNAME_SIZE : Nat := 256

/-- Unsigned 32-bit subtraction `a - b` (two's-complement wrap-safe),
as used for all compact-NTP arithmetic (spec §9, "Modular 32-bit NTP
arithmetic"). -/
def sub32 (a b : Nat) : Nat :=
  (2 ^ 32 + a % 2 ^ 32 - b % 2 ^ 32) % 2 ^ 32

/-- Modelled from the spec: `CompactNtpRttToMs` lives in
`time_util.cc`, which is not part of the given sources.  Spec §4.4 and
§9: "convert 1/65536-second units to milliseconds with round-to-nearest",
"convert to milliseconds via `(x * 1000 + 0x8000) >> 16`". -/
def compactNtpRttToMs (x : Nat) : Int :=
  ((x * 1000 + 0x8000) / 2 ^ 16 : Nat)

/-- One TMMBR/TMMBN item (`rtcp::TmmbItem`). -/
structure TmmbItem where
  ssrc : Nat
  bitrate : Nat
  overhead : Nat
deriving DecidableEq

/-- `RTCPSenderInfo`: the stored fields of the authoritative remote
Sender Report. -/
structure RTCPSenderInfo where
  NTPseconds : Nat
  NTPfraction : Nat
  RTPtimeStamp : Nat
  sendPacketCount : Nat
  sendOctetCount : Nat
deriving DecidableEq

def RTCPSenderInfo.zero : RTCPSenderInfo := ⟨0, 0, 0, 0, 0⟩

/-- `RTCPReportBlock` (the `remoteReceiveBlock` wire fields). -/
structure RTCPReportBlock where
  remoteSSRC : Nat
  sourceSSRC : Nat
  fractionLost : Nat
  cumulativeLost : Int
  extendedHighSeqNum : Nat
  jitter : Nat
  lastSR : Nat
  delaySinceLastSR : Nat
deriving DecidableEq

def RTCPReportBlock.zero : RTCPReportBlock := ⟨0, 0, 0, 0, 0, 0, 0, 0⟩

/-- Modelled from the spec (§3 "ReportBlockInfo"): the structure
`RTCPHelp::RTCPReportBlockInformation` is declared in
`rtcp_receiver_help.h`, which is not among the given sources; its
fields and zero-initialisation are taken from the spec's data model. -/
structure RTCPReportBlockInformation where
  remoteReceiveBlock : RTCPReportBlock
  remoteMaxJitter : Nat
  RTT : Int
  avgRTT : Int
  minRTT : Int
  maxRTT : Int
  numAverageCalcs : Nat
deriving DecidableEq

def RTCPReportBlockInformation.empty : RTCPReportBlockInformation :=
  ⟨RTCPReportBlock.zero, 0, 0, 0, 0, 0, 0⟩

/-- Modelled from the spec (§3 "ReceiveInfo"): the structure
`RTCPHelp::RTCPReceiveInformation` is declared in
`rtcp_receiver_help.h`, which is not among the given sources.
`tmmbr` holds the per-requester TMMBR entries (requesting SSRC,
item, received ms); `ClearTmmbr` empties it. -/
structure RTCPReceiveInformation where
  last_time_received_ms : Int
  ready_for_delete : Bool
  tmmbn : List TmmbItem
  tmmbr : List (Nat × TmmbItem × Int)
deriving DecidableEq

def RTCPReceiveInformation.empty : RTCPReceiveInformation :=
  ⟨0, false, [], []⟩

/-- XR receiver-reference-time state (`RtcpReceiveTimeInfo` member
`_remoteXRReceiveTimeInfo`). -/
structure XrReceiveTimeInfo where
  sourceSSRC : Nat
  lastRR : Nat
deriving DecidableEq

/-- Association-list lookup modelling `std::map::find`. -/
def mapLookup {V : Type} : List (Nat × V) → Nat → Option V
  | [], _ => none
  | (k', v) :: rest, k => if k' = k then some v else mapLookup rest k

/-- Association-list overwrite-or-append modelling `m[k] = v`. -/
def mapInsert {V : Type} (k : Nat) (v : V) : List (Nat × V) → List (Nat × V)
  | [] => [(k, v)]
  | (k', v') :: rest =>
      if k' = k then (k, v) :: rest else (k', v') :: mapInsert k v rest

/-- Association-list removal modelling `m.erase(k)`. -/
def mapErase {V : Type} (k : Nat) : List (Nat × V) → List (Nat × V)
  | [] => []
  | (k', v) :: rest =>
      if k' = k then mapErase k rest else (k', v) :: mapErase k rest

/-- The keys of an association list are pairwise distinct, as holds for
every `std::map`.  Stated recursively: each key does not occur again in
the tail. -/
def keysNodup {V : Type} : List (Nat × V) → Prop
  | [] => True
  | (k, _) :: rest => mapLookup rest k = none ∧ keysNodup rest

/-- The mutable state of `RTCPReceiver` (header lines 224-274).
`receiver_only` is a `const` member set at construction. -/
structure RTCPReceiver where
  receiver_only : Bool
  main_ssrc : Nat
  remoteSSRC : Nat
  registered_ssrcs : List Nat
  remoteSenderInfo : RTCPSenderInfo
  lastReceivedSRNTPsecs : Nat
  lastReceivedSRNTPfrac : Nat
  remoteXRReceiveTimeInfo : XrReceiveTimeInfo
  lastReceivedXRNTPsecs : Nat
  lastReceivedXRNTPfrac : Nat
  xr_rrtr_status : Bool
  xr_rr_rtt_ms : Int
  receivedReportBlockMap : List (Nat × List (Nat × RTCPReportBlockInformation))
  receivedInfoMap : List (Nat × RTCPReceiveInformation)
  receivedCnameMap : List (Nat × String)
  lastReceivedRrMs : Int
  lastIncreasedSequenceNumberMs : Int
  nackRequests : Nat
  nack_packets : Nat
  first_packet_time_ms : Int
  num_skipped_packets : Nat
  last_skipped_packets_warning : Int
deriving DecidableEq

/-- The constructor (rtcp_receiver.cc lines 62-93): everything zeroed,
`first_packet_time_ms` is `-1` (the `RtcpPacketTypeCounter` default),
and `last_skipped_packets_warning_` is the construction-time clock. -/
def RTCPReceiver.init (receiver_only : Bool) (nowMs : Int) : RTCPReceiver where
  receiver_only := receiver_only
  main_ssrc := 0
  remoteSSRC := 0
  registered_ssrcs := []
  remoteSenderInfo := RTCPSenderInfo.zero
  lastReceivedSRNTPsecs := 0
  lastReceivedSRNTPfrac := 0
  remoteXRReceiveTimeInfo := ⟨0, 0⟩
  lastReceivedXRNTPsecs := 0
  lastReceivedXRNTPfrac := 0
  xr_rrtr_status := false
  xr_rr_rtt_ms := 0
  receivedReportBlockMap := []
  receivedInfoMap := []
  receivedCnameMap := []
  lastReceivedRrMs := 0
  lastIncreasedSequenceNumberMs := 0
  nackRequests := 0
  nack_packets := 0
  first_packet_time_ms := -1
  num_skipped_packets := 0
  last_skipped_packets_warning := nowMs

/-- `RTCPReceiver::GetAndResetXrRrRtt` (lines 209-218): destructive
read; `none` models returning `false` without writing the out-param. -/
def RTCPReceiver.GetAndResetXrRrRtt (s : RTCPReceiver) :
    Option Int × RTCPReceiver :=
  if s.xr_rr_rtt_ms = 0 then (none, s)
  else (some s.xr_rr_rtt_ms, { s with xr_rr_rtt_ms := 0 })

/-- `RTCPReceiver::NTP` (lines 220-246): fills the out-params from the
stored sender info and unconditionally returns `true` (the TODO at line
220 notes it should fail when no SR has been received). -/
def RTCPReceiver.NTP (s : RTCPReceiver) :
    Bool × Nat × Nat × Nat × Nat × Nat :=
  (true, s.remoteSenderInfo.NTPseconds, s.remoteSenderInfo.NTPfraction,
   s.lastReceivedSRNTPsecs, s.lastReceivedSRNTPfrac,
   s.remoteSenderInfo.RTPtimeStamp)

/-- `RTCPReceiver::RtcpRrTimeout` (lines 663-675). -/
def RTCPReceiver.RtcpRrTimeout (nowMs rtcp_interval_ms : Int)
    (s : RTCPReceiver) : Bool × RTCPReceiver :=
  if s.lastReceivedRrMs = 0 then (false, s)
  else if nowMs > s.lastReceivedRrMs + kRrTimeoutIntervals * rtcp_interval_ms
  then (true, { s with lastReceivedRrMs := 0 })
  else (false, s)

/-- `RTCPReceiver::RtcpRrSequenceNumberTimeout` (lines 677-690). -/
def RTCPReceiver.RtcpRrSequenceNumberTimeout (nowMs rtcp_interval_ms : Int)
    (s : RTCPReceiver) : Bool × RTCPReceiver :=
  if s.lastIncreasedSequenceNumberMs = 0 then (false, s)
  else if nowMs >
      s.lastIncreasedSequenceNumberMs + kRrTimeoutIntervals * rtcp_interval_ms
  then (true, { s with lastIncreasedSequenceNumberMs := 0 })
  else (false, s)

/-- `RTCPReceiver::LastReceivedReceiverReport` (lines 132-142):
fold over the receive-info map keeping the largest
`last_time_received_ms`, starting from `-1`. -/
def RTCPReceiver.LastReceivedReceiverReport (s : RTCPReceiver) : Int :=
  s.receivedInfoMap.foldl
    (fun acc p =>
      if p.2.last_time_received_ms > acc then p.2.last_time_received_ms
      else acc) (-1)

/-- `RTCPReceiver::UpdateRTCPReceiveInformationTimers` (lines 692-734),
restricted to the map walk: an entry with positive
`last_time_received_ms` older than five audio intervals has its TMMBR
entries cleared and its timestamp zeroed (signalling a bounding-set
refresh); an entry with non-positive timestamp that is
`ready_for_delete` is erased. -/
def sweepInfoMap (nowMs : Int) :
    List (Nat × RTCPReceiveInformation) →
      Bool × List (Nat × RTCPReceiveInformation)
  | [] => (false, [])
  | (k, ri) :: rest =>
      if ri.last_time_received_ms > 0 then
        if nowMs - ri.last_time_received_ms > 5 * RTCP_INTERVAL_AUDIO_MS then
          let r := sweepInfoMap nowMs rest
          (true, (k, { ri with tmmbr := [], last_time_received_ms := 0 }) :: r.2)
        else
          let r := sweepInfoMap nowMs rest
          (r.1, (k, ri) :: r.2)
      else if ri.ready_for_delete then sweepInfoMap nowMs rest
      else
        let r := sweepInfoMap nowMs rest
        (r.1, (k, ri) :: r.2)

def RTCPReceiver.UpdateRTCPReceiveInformationTimers (nowMs : Int)
    (s : RTCPReceiver) : Bool × RTCPReceiver :=
  let r := sweepInfoMap nowMs s.receivedInfoMap
  (r.1, { s with receivedInfoMap := r.2 })

/-! ### Parsed RTCP packets

Modelled from the spec (§4.1 "Wire codec"): the per-type packet
classes (`rtcp::SenderReport`, `rtcp::Sdes`, ...) and
`rtcp::CommonHeader` live in `rtcp_packet/`, which is not among the
given sources.  A datagram is modelled as the list of its blocks in
wire order; a block whose common header fails to parse is `none`, and
within a block whose header parsed, a typed-parser rejection
(`X::Parse` returning false) is the `none` payload of the variant. -/

/-- One report block as carried by an SR or RR. -/
structure ReportBlockPkt where
  sourceSsrc : Nat
  fractionLost : Nat
  cumulativeLost : Int
  extendedHighSeqNum : Nat
  jitter : Nat
  lastSr : Nat
  delaySinceLastSr : Nat
deriving DecidableEq

structure SenderReportPkt where
  senderSsrc : Nat
  ntpSecs : Nat
  ntpFrac : Nat
  rtpTimestamp : Nat
  packetCount : Nat
  octetCount : Nat
  reportBlocks : List ReportBlockPkt
deriving DecidableEq

structure ReceiverReportPkt where
  senderSsrc : Nat
  reportBlocks : List ReportBlockPkt
deriving DecidableEq

structure SdesPkt where
  chunks : List (Nat × String)
deriving DecidableEq

structure ByePkt where
  senderSsrc : Nat
deriving DecidableEq

structure NackPkt where
  senderSsrc : Nat
  mediaSsrc : Nat
  packetIds : List Nat
deriving DecidableEq

structure TmmbnPkt where
  senderSsrc : Nat
  items : List TmmbItem
deriving DecidableEq

/-- One DLRR sub-block entry (`rtcp::ReceiveTimeInfo`). -/
structure ReceiveTimeInfoPkt where
  ssrc : Nat
  lastRr : Nat
  delaySinceLastRr : Nat
deriving DecidableEq

/-- An XR container: RRTR sub-blocks carry their NTP timestamp already
in compact form (`CompactNtp(rrtr.ntp())`); DLRR sub-blocks are lists
of `ReceiveTimeInfo` entries. -/
structure XrPkt where
  senderSsrc : Nat
  rrtrs : List Nat
  dlrrs : List (List ReceiveTimeInfoPkt)
deriving DecidableEq

/-- A parsed RTCP block, as dispatched by `ParseCompoundPacket`
(lines 323-386).  `unknown` stands for the `default` cases that
increment `num_skipped_packets_`.  Each variant's `Option` payload is
the result of the typed parser. -/
inductive Block where
  | sr (p : Option SenderReportPkt)
  | rr (p : Option ReceiverReportPkt)
  | sdes (p : Option SdesPkt)
  | bye (p : Option ByePkt)
  | xr (p : Option XrPkt)
  | nack (p : Option NackPkt)
  | tmmbn (p : Option TmmbnPkt)
  | unknown
deriving DecidableEq

/-- The accumulator `RTCPHelp::RTCPPacketInformation`; the
`rtcpPacketTypeFlags` bitmask is modelled as one `Bool` per flag.
Modelled from the spec (§4, flag behaviour) where the help structure's
source is not given. -/
structure RTCPPacketInformation where
  kSr : Bool
  kRr : Bool
  kSdes : Bool
  kNack : Bool
  kTmmbn : Bool
  kXrReceiverReferenceTime : Bool
  kXrDlrrReportBlock : Bool
  remoteSSRC : Nat
  nackSequenceNumbers : List Nat
  ntp_secs : Nat
  ntp_frac : Nat
  rtp_timestamp : Nat
  xr_originator_ssrc : Nat
  xr_dlrr_item : Bool
  report_blocks : List RTCPReportBlock
deriving DecidableEq

def RTCPPacketInformation.init : RTCPPacketInformation :=
  ⟨false, false, false, false, false, false, false, 0, [], 0, 0, 0, 0,
   false, []⟩

/-- One clock snapshot, standing for the `Clock` collaborator's readings
during one datagram: `TimeInMilliseconds`, `CurrentNtp`, and the
compact form `CompactNtp(NtpTime(*_clock))`. -/
structure ClockEnv where
  nowMs : Int
  ntpSecs : Nat
  ntpFrac : Nat
  nowCompact : Nat
deriving DecidableEq

/-- The RTT sample of one report block (lines 533-546):
`rtt_ntp = receive_time - delay - send_time` in unsigned 32-bit
arithmetic, then converted to milliseconds. -/
def rttSample (nowCompact : Nat) (rb : ReportBlockPkt) : Int :=
  compactNtpRttToMs (sub32 (sub32 nowCompact rb.delaySinceLastSr) rb.lastSr)

/-- The running-average update (lines 562-566).  The source computes
`((ac/(ac+1))*avgRTT + (1/(ac+1))*rtt)` in `float` and stores
`static_cast<int64_t>(newAverage + 0.5f)`; this is modelled exactly as
the round-half-up of the exact value `(n*avg + rtt)/(n+1)`, written as
an integer floor division (see `newAvg_eq_floor` for the rational
characterisation). -/
def newAvg (n : Nat) (avg rtt : Int) : Int :=
  Int.fdiv (2 * ((n : Int) * avg + rtt) + ((n : Int) + 1)) (2 * ((n : Int) + 1))

/-- The RTT-statistics update of `HandleReportBlock` (lines 547-571). -/
def updateRttStats (rtt : Int) (info : RTCPReportBlockInformation) :
    RTCPReportBlockInformation :=
  let i1 := if rtt > info.maxRTT then { info with maxRTT := rtt } else info
  let i2 :=
    if i1.minRTT = 0 then { i1 with minRTT := rtt }
    else if rtt < i1.minRTT then { i1 with minRTT := rtt }
    else i1
  let i3 := { i2 with RTT := rtt }
  let i4 :=
    if i3.numAverageCalcs ≠ 0 then
      { i3 with avgRTT := newAvg i3.numAverageCalcs i3.avgRTT rtt }
    else { i3 with avgRTT := rtt }
  { i4 with numAverageCalcs := i4.numAverageCalcs + 1 }

/-- Nested lookup in `_receivedReportBlockMap` (keyed by source SSRC,
then by remote SSRC), mirroring `GetReportBlockInformation`
(lines 592-605). -/
def lookup2 (m : List (Nat × List (Nat × RTCPReportBlockInformation)))
    (source_ssrc remote_ssrc : Nat) : Option RTCPReportBlockInformation :=
  match mapLookup m source_ssrc with
  | none => none
  | some inner => mapLookup inner remote_ssrc

/-- Nested insert `_receivedReportBlockMap[source_ssrc][remote_ssrc] = info`
(`CreateOrGetReportBlockInformation`, lines 580-590; `operator[]`
default-constructs the inner map). -/
def insert2 (source_ssrc remote_ssrc : Nat)
    (v : RTCPReportBlockInformation)
    (m : List (Nat × List (Nat × RTCPReportBlockInformation))) :
    List (Nat × List (Nat × RTCPReportBlockInformation)) :=
  mapInsert source_ssrc
    (mapInsert remote_ssrc v ((mapLookup m source_ssrc).getD [])) m

/-- The update of one `RTCPReportBlockInformation` record performed by
`HandleReportBlock` (lines 511-571): copy the wire fields, track the
jitter maximum, and — when not receiver-only and the block carries a
non-zero `last_sr` — fold in the RTT sample. -/
def rbiUpdate (ro : Bool) (nowCompact : Nat) (remoteSSRC : Nat)
    (rb : ReportBlockPkt) (old : RTCPReportBlockInformation) :
    RTCPReportBlockInformation :=
  let wire : RTCPReportBlock :=
    { remoteSSRC := remoteSSRC
      sourceSSRC := rb.sourceSsrc
      fractionLost := rb.fractionLost
      cumulativeLost := rb.cumulativeLost
      extendedHighSeqNum := rb.extendedHighSeqNum
      jitter := rb.jitter
      lastSR := rb.lastSr
      delaySinceLastSR := rb.delaySinceLastSr }
  let rbi := { old with remoteReceiveBlock := wire }
  let rbi :=
    if rb.jitter > rbi.remoteMaxJitter
    then { rbi with remoteMaxJitter := rb.jitter } else rbi
  if ro = false ∧ rb.lastSr ≠ 0
  then updateRttStats (rttSample nowCompact rb) rbi else rbi

/-- `RTCPReceiver::HandleReportBlock` (lines 485-578). -/
def handleReportBlock (nowMs : Int) (nowCompact : Nat) (remoteSSRC : Nat)
    (rb : ReportBlockPkt) :
    RTCPReceiver × RTCPPacketInformation →
      RTCPReceiver × RTCPPacketInformation := fun (s, info) =>
  if rb.sourceSsrc ∈ s.registered_ssrcs then
    let old :=
      (lookup2 s.receivedReportBlockMap rb.sourceSsrc remoteSSRC).getD
        RTCPReportBlockInformation.empty
    let s := { s with lastReceivedRrMs := nowMs }
    let s :=
      if rb.extendedHighSeqNum > old.remoteReceiveBlock.extendedHighSeqNum
      then { s with lastIncreasedSequenceNumberMs := nowMs } else s
    let rbi := rbiUpdate s.receiver_only nowCompact remoteSSRC rb old
    let s :=
      { s with
          receivedReportBlockMap :=
            insert2 rb.sourceSsrc remoteSSRC rbi s.receivedReportBlockMap }
    (s,
     { info with
         report_blocks := info.report_blocks ++ [rbi.remoteReceiveBlock] })
  else (s, info)

/-- `CreateReceiveInformation` (lines 636-649): ensure an entry exists. -/
def ensureReceiveInfo (ssrc : Nat) (s : RTCPReceiver) : RTCPReceiver :=
  match mapLookup s.receivedInfoMap ssrc with
  | some _ => s
  | none =>
    { s with
        receivedInfoMap :=
          mapInsert ssrc RTCPReceiveInformation.empty s.receivedInfoMap }

/-- `ptrReceiveInfo->last_time_received_ms = _clock->TimeInMilliseconds()`
through the pointer returned by `CreateReceiveInformation`. -/
def touchReceiveInfo (ssrc : Nat) (nowMs : Int) (s : RTCPReceiver) :
    RTCPReceiver :=
  let ri := (mapLookup s.receivedInfoMap ssrc).getD RTCPReceiveInformation.empty
  { s with
      receivedInfoMap :=
        mapInsert ssrc { ri with last_time_received_ms := nowMs }
          s.receivedInfoMap }

/-- `RTCPReceiver::HandleSenderReport` (lines 407-454). -/
def handleSenderReport (env : ClockEnv) (p : Option SenderReportPkt) :
    RTCPReceiver × RTCPPacketInformation →
      RTCPReceiver × RTCPPacketInformation := fun (s, info) =>
  match p with
  | none => ({ s with num_skipped_packets := s.num_skipped_packets + 1 }, info)
  | some sr =>
    let info := { info with remoteSSRC := sr.senderSsrc }
    let s := ensureReceiveInfo sr.senderSsrc s
    let si :=
      if s.remoteSSRC = sr.senderSsrc then
        ({ s with
             remoteSenderInfo :=
               ⟨sr.ntpSecs, sr.ntpFrac, sr.rtpTimestamp, sr.packetCount,
                sr.octetCount⟩
             lastReceivedSRNTPsecs := env.ntpSecs
             lastReceivedSRNTPfrac := env.ntpFrac },
         { info with
             kSr := true
             ntp_secs := sr.ntpSecs
             ntp_frac := sr.ntpFrac
             rtp_timestamp := sr.rtpTimestamp })
      else (s, { info with kRr := true })
    let si := (touchReceiveInfo sr.senderSsrc env.nowMs si.1, si.2)
    sr.reportBlocks.foldl
      (fun si rb =>
        handleReportBlock env.nowMs env.nowCompact sr.senderSsrc rb si)
      si

/-- `RTCPReceiver::HandleReceiverReport` (lines 456-483). -/
def handleReceiverReport (env : ClockEnv) (p : Option ReceiverReportPkt) :
    RTCPReceiver × RTCPPacketInformation →
      RTCPReceiver × RTCPPacketInformation := fun (s, info) =>
  match p with
  | none => ({ s with num_skipped_packets := s.num_skipped_packets + 1 }, info)
  | some rr =>
    let info := { info with remoteSSRC := rr.senderSsrc }
    let s := ensureReceiveInfo rr.senderSsrc s
    let info := { info with kRr := true }
    let s := touchReceiveInfo rr.senderSsrc env.nowMs s
    rr.reportBlocks.foldl
      (fun si rb =>
        handleReportBlock env.nowMs env.nowCompact rr.senderSsrc rb si)
      (s, info)

/-- CNAME truncation: `name[RTCP_CNAME_SIZE-1] = 0` followed by
`strncpy(name, cname, RTCP_CNAME_SIZE-1)` keeps at most
`RTCP_CNAME_SIZE - 1` characters. -/
def truncCname (c : String) : String := c.take (RTCP_CNAME_SIZE - 1)

/-- `RTCPReceiver::HandleSDES` (lines 752-773).  The `CNameChanged`
statistics callback is an external observer and not modelled. -/
def handleSDES (p : Option SdesPkt) :
    RTCPReceiver × RTCPPacketInformation →
      RTCPReceiver × RTCPPacketInformation := fun (s, info) =>
  match p with
  | none => ({ s with num_skipped_packets := s.num_skipped_packets + 1 }, info)
  | some sdes =>
    let s := sdes.chunks.foldl
      (fun s c =>
        { s with
            receivedCnameMap :=
              mapInsert c.1 (truncCname c.2) s.receivedCnameMap })
      s
    (s, { info with kSdes := true })

/-- `RTCPReceiver::HandleNACK` (lines 775-796).  The NACK statistics
(`NackStats::ReportRequest`, in `rtcp_utility.cc`, not among the given
sources) are modelled from the spec (§4.7): each packet id reported
bumps the total request count. -/
def handleNACK (p : Option NackPkt) :
    RTCPReceiver × RTCPPacketInformation →
      RTCPReceiver × RTCPPacketInformation := fun (s, info) =>
  match p with
  | none => ({ s with num_skipped_packets := s.num_skipped_packets + 1 }, info)
  | some n =>
    if s.receiver_only = true ∨ s.main_ssrc ≠ n.mediaSsrc then (s, info)
    else
      let info := { info with nackSequenceNumbers := n.packetIds }
      let s := { s with nackRequests := s.nackRequests + n.packetIds.length }
      if n.packetIds ≠ [] then
        ({ s with nack_packets := s.nack_packets + 1 },
         { info with kNack := true })
      else (s, info)

/-- `RTCPReceiver::HandleBYE` (lines 798-831): purge this sender's
entries from every inner report-block map, mark its receive info
`ready_for_delete`, drop its CNAME slot, reset `xr_rr_rtt_ms_`. -/
def handleBYE (p : Option ByePkt) (s : RTCPReceiver) : RTCPReceiver :=
  match p with
  | none => { s with num_skipped_packets := s.num_skipped_packets + 1 }
  | some bye =>
    let s :=
      { s with
          receivedReportBlockMap :=
            s.receivedReportBlockMap.map
              (fun (q : Nat × List (Nat × RTCPReportBlockInformation)) =>
                (q.1, mapErase bye.senderSsrc q.2)) }
    let s :=
      match mapLookup s.receivedInfoMap bye.senderSsrc with
      | none => s
      | some ri =>
        { s with
            receivedInfoMap :=
              mapInsert bye.senderSsrc { ri with ready_for_delete := true }
                s.receivedInfoMap }
    let s :=
      { s with receivedCnameMap := mapErase bye.senderSsrc s.receivedCnameMap }
    { s with xr_rr_rtt_ms := 0 }

/-- `RTCPReceiver::HandleXrReceiveReferenceTime` (lines 851-862). -/
def handleXrReceiveReferenceTime (env : ClockEnv) (rrtrCompactNtp : Nat) :
    RTCPReceiver × RTCPPacketInformation →
      RTCPReceiver × RTCPPacketInformation := fun (s, info) =>
  ({ s with
       remoteXRReceiveTimeInfo := ⟨info.xr_originator_ssrc, rrtrCompactNtp⟩
       lastReceivedXRNTPsecs := env.ntpSecs
       lastReceivedXRNTPfrac := env.ntpFrac },
   { info with kXrReceiverReferenceTime := true })

/-- `RTCPReceiver::HandleXrDlrrReportBlock` (lines 864-890). -/
def handleXrDlrrReportBlock (env : ClockEnv) (rti : ReceiveTimeInfoPkt) :
    RTCPReceiver × RTCPPacketInformation →
      RTCPReceiver × RTCPPacketInformation := fun (s, info) =>
  if rti.ssrc ∈ s.registered_ssrcs then
    let info := { info with xr_dlrr_item := true }
    if s.xr_rrtr_status = true then
      if rti.lastRr = 0 then (s, info)
      else
        ({ s with
             xr_rr_rtt_ms :=
               compactNtpRttToMs
                 (sub32 (sub32 env.nowCompact rti.delaySinceLastRr)
                   rti.lastRr) },
         { info with kXrDlrrReportBlock := true })
    else (s, info)
  else (s, info)

/-- `RTCPReceiver::HandleXr` (lines 833-849). -/
def handleXr (env : ClockEnv) (p : Option XrPkt) :
    RTCPReceiver × RTCPPacketInformation →
      RTCPReceiver × RTCPPacketInformation := fun (s, info) =>
  match p with
  | none => ({ s with num_skipped_packets := s.num_skipped_packets + 1 }, info)
  | some xr =>
    let info := { info with xr_originator_ssrc := xr.senderSsrc }
    let si := xr.rrtrs.foldl
      (fun si r => handleXrReceiveReferenceTime env r si) (s, info)
    xr.dlrrs.foldl
      (fun si sub =>
        sub.foldl (fun si rti => handleXrDlrrReportBlock env rti si) si)
      si

/-- `RTCPReceiver::HandleTMMBN` (lines 937-954): requires an existing
receive info (`GetReceiveInformation`), sets `kTmmbn`, and appends the
block's items to the stored `tmmbn`. -/
def handleTMMBN (p : Option TmmbnPkt) :
    RTCPReceiver × RTCPPacketInformation →
      RTCPReceiver × RTCPPacketInformation := fun (s, info) =>
  match p with
  | none => ({ s with num_skipped_packets := s.num_skipped_packets + 1 }, info)
  | some t =>
    match mapLookup s.receivedInfoMap t.senderSsrc with
    | none => (s, info)
    | some ri =>
      ({ s with
           receivedInfoMap :=
             mapInsert t.senderSsrc { ri with tmmbn := ri.tmmbn ++ t.items }
               s.receivedInfoMap },
       { info with kTmmbn := true })

/-- The dispatch switch of `ParseCompoundPacket` (lines 323-386) for
the modelled block types; the `default` cases are `Block.unknown`. -/
def handleBlock (env : ClockEnv) (b : Block) :
    RTCPReceiver × RTCPPacketInformation →
      RTCPReceiver × RTCPPacketInformation := fun si =>
  match b with
  | .sr p => handleSenderReport env p si
  | .rr p => handleReceiverReport env p si
  | .sdes p => handleSDES p si
  | .bye p => (handleBYE p si.1, si.2)
  | .xr p => handleXr env p si
  | .nack p => handleNACK p si
  | .tmmbn p => handleTMMBN p si
  | .unknown =>
      ({ si.1 with num_skipped_packets := si.1.num_skipped_packets + 1 }, si.2)

/-- The block walk of `ParseCompoundPacket` (lines 306-387):
a header-parse failure (`none`) that is not the first block increments
`num_skipped_packets_` and stops the walk; a parsed header records
`first_packet_time_ms` if unset and dispatches. -/
def processBlocks (env : ClockEnv) :
    List (Option Block) →
      RTCPReceiver × RTCPPacketInformation →
        RTCPReceiver × RTCPPacketInformation
  | [], si => si
  | none :: _, (s, info) =>
      ({ s with num_skipped_packets := s.num_skipped_packets + 1 }, info)
  | some b :: rest, (s, info) =>
      let s :=
        if s.first_packet_time_ms = -1
        then { s with first_packet_time_ms := env.nowMs } else s
      processBlocks env rest (handleBlock env b (s, info))

/-- The rate-limited skipped-packets warning (lines 394-402): only the
`last_skipped_packets_warning_` timestamp is updated. -/
def warnUpdate (nowMs : Int) (s : RTCPReceiver) : RTCPReceiver :=
  if nowMs - s.last_skipped_packets_warning ≥ kMaxWarningLogIntervalMs ∧
      s.num_skipped_packets > 0
  then { s with last_skipped_packets_warning := nowMs } else s

/-- `RTCPReceiver::ParseCompoundPacket` (lines 299-405): if the first
common header fails to parse the whole datagram is rejected with no
state change; otherwise the blocks are walked and the warning
timestamp updated. -/
def ParseCompoundPacket (env : ClockEnv) (blocks : List (Option Block))
    (s : RTCPReceiver) :
    Bool × RTCPReceiver × RTCPPacketInformation :=
  match blocks with
  | none :: _ => (false, s, RTCPPacketInformation.init)
  | _ =>
    let si := processBlocks env blocks (s, RTCPPacketInformation.init)
    (true, warnUpdate env.nowMs si.1, si.2)

/-- `RTCPReceiver::IncomingPacket` (lines 119-130): an empty datagram
is rejected; otherwise parse, and on success the accumulated packet
information is handed to `TriggerCallbacksFromRTCPPacket` (external
observers, not modelled). -/
def IncomingPacket (env : ClockEnv) (blocks : List (Option Block))
    (s : RTCPReceiver) : Bool × RTCPReceiver :=
  if blocks.isEmpty then (false, s)
  else
    let r := ParseCompoundPacket env blocks s
    (r.1, r.2.1)

/-! ### Derived definitions used by the verification -/

/-- The state component of a parse (`ParseCompoundPacket`'s effect). -/
def parseState (env : ClockEnv) (blocks : List (Option Block))
    (s : RTCPReceiver) : RTCPReceiver :=
  (ParseCompoundPacket env blocks s).2.1

/-- One `HandleReportBlock` call site: the clock readings at that call,
the reporter (`remoteSSRC`), and the wire report block. -/
structure RBEvent where
  nowMs : Int
  nowCompact : Nat
  remoteSSRC : Nat
  rb : ReportBlockPkt
deriving DecidableEq

/-- A sequence of report blocks processed through `HandleReportBlock`. -/
def processRBEvents (evs : List RBEvent)
    (si : RTCPReceiver × RTCPPacketInformation) :
    RTCPReceiver × RTCPPacketInformation :=
  evs.foldl
    (fun si e => handleReportBlock e.nowMs e.nowCompact e.remoteSSRC e.rb si)
    si

/-- The RTT-statistics invariant of one report-block info record: before
the first sample the statistics are at their zero initialisation; after
at least one sample, `1 ≤ min ≤ avg ≤ max`. -/
def RttInv (r : RTCPReportBlockInformation) : Prop :=
  if r.numAverageCalcs = 0 then r.minRTT = 0 ∧ r.avgRTT = 0 ∧ r.maxRTT = 0
  else 1 ≤ r.minRTT ∧ r.minRTT ≤ r.avgRTT ∧ r.avgRTT ≤ r.maxRTT

/-- `RttInv` for every stored report-block info record. -/
def AllRttInv (s : RTCPReceiver) : Prop :=
  ∀ src rem r, lookup2 s.receivedReportBlockMap src rem = some r → RttInv r

/-! ### Per-projection replay of a datagram (used for the double-feed
analysis): `runFold f` walks the blocks exactly like `processBlocks`
(stopping at a header-parse failure) but tracks only one projection of
the state. -/

def runFold {α : Type} (f : Block → α → α) :
    List (Option Block) → α → α
  | [], x => x
  | none :: _, x => x
  | some b :: rest, x => runFold f rest (f b x)

/-- A function that is either the identity or a constant. -/
def constOrId {α : Type} (F : α → α) : Prop :=
  (∀ x, F x = x) ∨ ∃ c, ∀ x, F x = c

/-- The overwrite-style sender state: `_remoteSenderInfo` together with
`_lastReceivedSRNTPsecs/frac`. -/
def senderTupleOf (s : RTCPReceiver) : RTCPSenderInfo × Nat × Nat :=
  (s.remoteSenderInfo, s.lastReceivedSRNTPsecs, s.lastReceivedSRNTPfrac)

/-- The configuration fields that no packet handler writes (set only at
construction / SetRemoteSSRC, cf. rtcp_receiver.h). -/
def constsOf (s : RTCPReceiver) : Bool × Nat × Nat × List Nat :=
  (s.receiver_only, s.main_ssrc, s.remoteSSRC, s.registered_ssrcs)

/-- How one block transforms the sender tuple (only an SR from the
authoritative remote SSRC overwrites it; cf. lines 428-443). -/
def srStep (rssrc : Nat) (env : ClockEnv) (b : Block)
    (x : RTCPSenderInfo × Nat × Nat) : RTCPSenderInfo × Nat × Nat :=
  match b with
  | .sr (some p) =>
      if rssrc = p.senderSsrc then
        (⟨p.ntpSecs, p.ntpFrac, p.rtpTimestamp, p.packetCount, p.octetCount⟩,
         env.ntpSecs, env.ntpFrac)
      else x
  | _ => x

/-- How one SDES chunk transforms the CNAME slot of key `k`. -/
def cnameChunkStep (k : Nat) (c : Nat × String) (x : Option String) :
    Option String :=
  if c.1 = k then some (truncCname c.2) else x

/-- How one block transforms the CNAME slot of key `k` (SDES overwrites,
BYE erases; cf. lines 760-771 and 823-829). -/
def cnameStep (k : Nat) (b : Block) (x : Option String) : Option String :=
  match b with
  | .sdes (some p) => p.chunks.foldl (fun x c => cnameChunkStep k c x) x
  | .bye (some p) => if p.senderSsrc = k then none else x
  | _ => x

/-- The maxima projection of one report-block info record:
`(maxRTT, remoteMaxJitter)`. -/
def maximaOf (r : RTCPReportBlockInformation) : Int × Nat :=
  (r.maxRTT, r.remoteMaxJitter)

/-- The zero initialisation of the maxima projection. -/
def pbot : Int × Nat := (0, 0)

/-- The contribution of one report block to the maxima projection:
an optional RTT sample (present only when RTT is computed) and the
jitter value. -/
structure MaxC where
  mrtt : Option Int
  mjit : Nat
deriving DecidableEq

/-- Apply a contribution: join each component with the stored value. -/
def capply (c : MaxC) (p : Int × Nat) : Int × Nat :=
  ((match c.mrtt with | none => p.1 | some v => max p.1 v), max p.2 c.mjit)

/-- Sequential composition of contributions (`c` first, then `d`). -/
def cjoin (c d : MaxC) : MaxC :=
  ⟨(match d.mrtt with
    | none => c.mrtt
    | some v =>
        match c.mrtt with
        | none => some v
        | some w => some (max w v)),
   max c.mjit d.mjit⟩

/-- The contribution of one report block (cf. lines 529-549). -/
def rbContrib (ro : Bool) (nowCompact : Nat) (rb : ReportBlockPkt) : MaxC :=
  ⟨if ro = false ∧ rb.lastSr ≠ 0 then some (rttSample nowCompact rb)
    else none,
   rb.jitter⟩

/-- How one report block transforms the maxima projection at `key =
(source_ssrc, remote_ssrc)`. -/
def rbMaximaStep (reg : List Nat) (ro : Bool) (nowCompact : Nat)
    (remote : Nat) (key : Nat × Nat) (rb : ReportBlockPkt)
    (x : Option (Int × Nat)) : Option (Int × Nat) :=
  if rb.sourceSsrc ∈ reg ∧ rb.sourceSsrc = key.1 ∧ remote = key.2 then
    some (capply (rbContrib ro nowCompact rb) (x.getD pbot))
  else x

/-- How one block transforms the maxima projection at `key`. -/
def maximaStep (reg : List Nat) (ro : Bool) (nowCompact : Nat)
    (key : Nat × Nat) (b : Block) (x : Option (Int × Nat)) :
    Option (Int × Nat) :=
  match b with
  | .sr (some p) =>
      p.reportBlocks.foldl
        (fun x rb => rbMaximaStep reg ro nowCompact p.senderSsrc key rb x) x
  | .rr (some p) =>
      p.reportBlocks.foldl
        (fun x rb => rbMaximaStep reg ro nowCompact p.senderSsrc key rb x) x
  | .bye (some p) => if p.senderSsrc = key.2 then none else x
  | _ => x

/-- The stored maxima projection at `key`. -/
def maximaAt (s : RTCPReceiver) (key : Nat × Nat) : Option (Int × Nat) :=
  (lookup2 s.receivedReportBlockMap key.1 key.2).map maximaOf

/-- A maxima transformer in normal form: identity, constant, or a join
with a fixed contribution. -/
def joinForm (F : Option (Int × Nat) → Option (Int × Nat)) : Prop :=
  (∀ x, F x = x) ∨ (∃ o, ∀ x, F x = o) ∨
    ∃ c, ∀ x, F x = some (capply c (x.getD pbot))

/-- How one block changes the total NACK request count
(cf. lines 783-794). -/
def nackStep (ro : Bool) (mainSsrc : Nat) (b : Block) (x : Nat) : Nat :=
  match b with
  | .nack (some p) =>
      if ro = true ∨ mainSsrc ≠ p.mediaSsrc then x
      else x + p.packetIds.length
  | _ => x

/-! ### Concrete example data used by witnesses and counterexamples -/

def exClock : ClockEnv := ⟨0, 0, 0, 0⟩

def exTmmbnItemOld : TmmbItem := ⟨5, 900, 0⟩

def exTmmbnItemNew : TmmbItem := ⟨6, 1000, 0⟩

def exTmmbnState : RTCPReceiver :=
  { RTCPReceiver.init false 0 with
      receivedInfoMap :=
        [(1, { RTCPReceiveInformation.empty with tmmbn := [exTmmbnItemOld] })] }

def exByeState : RTCPReceiver :=
  { RTCPReceiver.init false 0 with
      receivedInfoMap :=
        [(1, { RTCPReceiveInformation.empty with
                 last_time_received_ms := 5 })] }

def exRttState : RTCPReceiver :=
  { RTCPReceiver.init false 0 with
      registered_ssrcs := [10], remoteSSRC := 7 }

def exRbPkt : ReportBlockPkt := ⟨10, 0, 0, 0, 0, 1, 0⟩

/-- Three report blocks whose RTT samples are 5 ms, 0 ms and 7 ms. -/
def exRttEvents : List RBEvent :=
  [⟨0, 329, 7, exRbPkt⟩, ⟨0, 1, 7, exRbPkt⟩, ⟨0, 460, 7, exRbPkt⟩]

def exXrState : RTCPReceiver :=
  { RTCPReceiver.init false 0 with registered_ssrcs := [10] }

def exRti : ReceiveTimeInfoPkt := ⟨10, 55, 0⟩

def exRrState : RTCPReceiver :=
  { RTCPReceiver.init false 0 with lastReceivedRrMs := 5 }

def exXrRttState : RTCPReceiver :=
  { RTCPReceiver.init false 0 with xr_rr_rtt_ms := 7 }

def exInfoMapState : RTCPReceiver :=
  { RTCPReceiver.init false 0 with
      receivedInfoMap :=
        [(1, { RTCPReceiveInformation.empty with last_time_received_ms := 5 }),
         (2, { RTCPReceiveInformation.empty with
                 last_time_received_ms := 9 })] }

def exNackDatagram : List (Option Block) :=
  [some (Block.nack (some ⟨1, 0, [4, 5]⟩))]

def exXrStateOn : RTCPReceiver :=
  { RTCPReceiver.init false 0 with
      registered_ssrcs := [10], xr_rrtr_status := true }

/-! ### Helper lemmas about the association-list maps -/

theorem mapLookup_mapInsert {V : Type} (k j : Nat) (v : V)
    (m : List (Nat × V)) :
    mapLookup (mapInsert k v m) j = if k = j then some v else mapLookup m j := by
  induction m with
  | nil =>
    by_cases hj : k = j <;> simp [mapInsert, mapLookup, hj]
  | cons p rest ih =>
    obtain ⟨k', v'⟩ := p
    by_cases h : k' = k
    · subst h
      by_cases hj : k' = j <;> simp [mapInsert, mapLookup, hj]
    · by_cases hj : k' = j
      · subst hj
        have hkj : ¬ k = k' := fun hh => h hh.symm
        simp [mapInsert, mapLookup, h, hkj]
      · simp [mapInsert, mapLookup, h, hj, ih]

theorem mapLookup_mapErase {V : Type} (k j : Nat) (m : List (Nat × V)) :
    mapLookup (mapErase k m) j = if k = j then none else mapLookup m j := by
  induction m with
  | nil =>
    by_cases hj : k = j <;> simp [mapErase, mapLookup, hj]
  | cons p rest ih =>
    obtain ⟨k', v'⟩ := p
    by_cases h : k' = k
    · subst h
      by_cases hj : k' = j
      · subst hj
        simpa [mapErase, mapLookup] using ih
      · have hkj : ¬ k' = j := hj
        simpa [mapErase, mapLookup, hkj] using ih
    · by_cases hj : k' = j
      · subst hj
        have hkj : ¬ k = k' := fun hh => h hh.symm
        simp [mapErase, mapLookup, h, hkj]
      · simp [mapErase, mapLookup, h, hj, ih]

theorem mapLookup_map_value {V W : Type} (g : V → W) (m : List (Nat × V))
    (k : Nat) :
    mapLookup (m.map (fun q => (q.1, g q.2))) k = (mapLookup m k).map g := by
  induction m with
  | nil => simp [mapLookup]
  | cons p rest ih =>
    by_cases h : p.1 = k <;> simp [mapLookup, h, ih]

theorem foldl_preserve {σ β τ : Type} (g : β → σ → σ) (P : σ → τ)
    (h : ∀ b x, P (g b x) = P x) :
    ∀ (l : List β) (x : σ), P (l.foldl (fun x b => g b x) x) = P x := by
  intro l
  induction l with
  | nil => intro x; rfl
  | cons a l ih => intro x; simpa [List.foldl, h] using ih (g a x)

theorem keysNodup_mapInsert {V : Type} (k : Nat) (v : V)
    (m : List (Nat × V)) (h : keysNodup m) : keysNodup (mapInsert k v m) := by
  induction m with
  | nil => simp [mapInsert, keysNodup, mapLookup]
  | cons p rest ih =>
    obtain ⟨k', v'⟩ := p
    obtain ⟨h1, h2⟩ := h
    by_cases hk : k' = k
    · subst hk
      simpa [mapInsert, keysNodup] using ⟨h1, h2⟩
    · have hlk : mapLookup (mapInsert k v rest) k' = none := by
        rw [mapLookup_mapInsert]
        have hkk : ¬ k = k' := fun hh => hk hh.symm
        simp [hkk, h1]
      simpa [mapInsert, hk, keysNodup] using ⟨hlk, ih h2⟩

theorem sweep_lookup_none (now : Int) (m : List (Nat × RTCPReceiveInformation))
    (k : Nat) (h : mapLookup m k = none) :
    mapLookup (sweepInfoMap now m).2 k = none := by
  induction m with
  | nil => simp [sweepInfoMap, mapLookup]
  | cons p rest ih =>
    obtain ⟨k', ri⟩ := p
    have hk : ¬ k' = k := by
      intro hh
      simp [mapLookup, hh] at h
    have hrest : mapLookup rest k = none := by
      simpa [mapLookup, hk] using h
    by_cases h1 : ri.last_time_received_ms > 0
    · by_cases h2 : now - ri.last_time_received_ms > 5 * RTCP_INTERVAL_AUDIO_MS <;>
        simp [sweepInfoMap, h1, h2, mapLookup, hk, ih hrest]
    · by_cases h3 : ri.ready_for_delete = true <;>
        simp [sweepInfoMap, h1, h3, mapLookup, hk, ih hrest]

theorem sweep_lookup_spec (now : Int)
    (m : List (Nat × RTCPReceiveInformation)) (k : Nat)
    (ri : RTCPReceiveInformation)
    (hnd : keysNodup m) (h : mapLookup m k = some ri) :
    mapLookup (sweepInfoMap now m).2 k =
      if ri.last_time_received_ms > 0 then
        if now - ri.last_time_received_ms > 5 * RTCP_INTERVAL_AUDIO_MS then
          some { ri with tmmbr := [], last_time_received_ms := 0 }
        else some ri
      else if ri.ready_for_delete then none
      else some ri := by
  induction m with
  | nil => simp [mapLookup] at h
  | cons p rest ih =>
    obtain ⟨k', ri'⟩ := p
    obtain ⟨h1, h2⟩ := hnd
    by_cases hk : k' = k
    · subst hk
      have hri : ri' = ri := by simpa [mapLookup] using h
      subst hri
      by_cases b1 : ri'.last_time_received_ms > 0
      · by_cases b2 : now - ri'.last_time_received_ms > 5 * RTCP_INTERVAL_AUDIO_MS <;>
          simp [sweepInfoMap, b1, b2, mapLookup]
      · by_cases b3 : ri'.ready_for_delete = true
        · simp [sweepInfoMap, b1, b3, sweep_lookup_none now rest k' h1]
        · simp [sweepInfoMap, b1, b3, mapLookup]
    · have hrest : mapLookup rest k = some ri := by
        simpa [mapLookup, hk] using h
      have hih := ih h2 hrest
      by_cases b1 : ri'.last_time_received_ms > 0
      · by_cases b2 : now - ri'.last_time_received_ms > 5 * RTCP_INTERVAL_AUDIO_MS <;>
          simp [sweepInfoMap, b1, b2, mapLookup, hk, hih]
      · by_cases b3 : ri'.ready_for_delete = true
        · simp [sweepInfoMap, b1, b3, hih]
        · simp [sweepInfoMap, b1, b3, mapLookup, hk, hih]

theorem sweep_keysNodup (now : Int)
    (m : List (Nat × RTCPReceiveInformation)) (h : keysNodup m) :
    keysNodup (sweepInfoMap now m).2 := by
  induction m with
  | nil => simp [sweepInfoMap, keysNodup]
  | cons p rest ih =>
    obtain ⟨k', ri⟩ := p
    obtain ⟨h1, h2⟩ := h
    have hn := sweep_lookup_none now rest k' h1
    by_cases b1 : ri.last_time_received_ms > 0
    · by_cases b2 : now - ri.last_time_received_ms > 5 * RTCP_INTERVAL_AUDIO_MS <;>
        simp [sweepInfoMap, b1, b2, keysNodup, hn, ih h2]
    · by_cases b3 : ri.ready_for_delete = true
      · simp [sweepInfoMap, b1, b3, ih h2]
      · simp [sweepInfoMap, b1, b3, keysNodup, hn, ih h2]

theorem handleBYE_infoMap (b : Nat) (s : RTCPReceiver)
    (ri : RTCPReceiveInformation)
    (h : mapLookup s.receivedInfoMap b = some ri) :
    (handleBYE (some ⟨b⟩) s).receivedInfoMap =
      mapInsert b { ri with ready_for_delete := true } s.receivedInfoMap := by
  unfold handleBYE
  simp [h]

theorem handleBYE_rbMap (b : Nat) (s : RTCPReceiver) :
    (handleBYE (some ⟨b⟩) s).receivedReportBlockMap =
      s.receivedReportBlockMap.map
        (fun (q : Nat × List (Nat × RTCPReportBlockInformation)) =>
          (q.1, mapErase b q.2)) := by
  unfold handleBYE
  cases hm : mapLookup s.receivedInfoMap b <;> simp [hm]

theorem foldlMax_spec (l : List (Nat × RTCPReceiveInformation)) :
    ∀ acc : Int,
      (l.foldl
          (fun acc p =>
            if p.2.last_time_received_ms > acc then p.2.last_time_received_ms
            else acc) acc = acc ∨
        ∃ p ∈ l,
          l.foldl
            (fun acc p =>
              if p.2.last_time_received_ms > acc then p.2.last_time_received_ms
              else acc) acc = p.2.last_time_received_ms) ∧
      acc ≤ l.foldl
        (fun acc p =>
          if p.2.last_time_received_ms > acc then p.2.last_time_received_ms
          else acc) acc ∧
      ∀ p ∈ l,
        p.2.last_time_received_ms ≤ l.foldl
          (fun acc p =>
            if p.2.last_time_received_ms > acc then p.2.last_time_received_ms
            else acc) acc := by
  induction l with
  | nil => intro acc; simp
  | cons q t ih =>
    intro acc
    by_cases hq : q.2.last_time_received_ms > acc
    · obtain ⟨d1, d2, d3⟩ := ih q.2.last_time_received_ms
      refine ⟨?_, ?_, ?_⟩
      · rcases d1 with d1 | ⟨p, hp, he⟩
        · exact Or.inr ⟨q, by simp, by simp [List.foldl, hq, d1]⟩
        · exact Or.inr ⟨p, by simp [hp], by simp [List.foldl, hq, he]⟩
      · exact le_trans (le_of_lt hq) (by simpa [List.foldl, hq] using d2)
      · intro p hp
        rcases List.mem_cons.1 hp with hp | hp
        · subst hp
          simpa [List.foldl, hq] using d2
        · simpa [List.foldl, hq] using d3 p hp
    · obtain ⟨d1, d2, d3⟩ := ih acc
      refine ⟨?_, ?_, ?_⟩
      · rcases d1 with d1 | ⟨p, hp, he⟩
        · exact Or.inl (by simp [List.foldl, hq, d1])
        · exact Or.inr ⟨p, by simp [hp], by simp [List.foldl, hq, he]⟩
      · simpa [List.foldl, hq] using d2
      · intro p hp
        rcases List.mem_cons.1 hp with hp | hp
        · subst hp
          exact le_trans (not_lt.1 hq) (by simpa [List.foldl, hq] using d2)
        · simpa [List.foldl, hq] using d3 p hp

/-! ### Claim theorems: C1, C2, C4, C5, C7, C9, C10 -/

/-- C1 counterexample: with a `ReceiveInfo` whose stored `tmmbn` is
`[exTmmbnItemOld]`, handling a TMMBN block carrying `[exTmmbnItemNew]`
leaves `tmmbn = [exTmmbnItemOld, exTmmbnItemNew]`, not the block's
items alone — the claim's "replaces" is false at this input. -/
theorem tmmbn_replace_counterexample :
    ((mapLookup (handleTMMBN (some ⟨1, [exTmmbnItemNew]⟩)
        (exTmmbnState, RTCPPacketInformation.init)).1.receivedInfoMap 1).map
      (fun r => r.tmmbn)) = some [exTmmbnItemOld, exTmmbnItemNew] ∧
    [exTmmbnItemOld, exTmmbnItemNew] ≠ [exTmmbnItemNew] := by
  constructor
  · rfl
  · decide

/-- C1 (amended): when a TMMBN block is received from a sender for
which a `ReceiveInfo` already exists, handling it *appends* the block's
items to the stored `tmmbn` (so after handling, the stored `tmmbn` is
the previous sequence followed by the block's items) and sets the
`kTmmbn` flag. -/
theorem handleTMMBN_appends (t : TmmbnPkt) (s : RTCPReceiver)
    (info : RTCPPacketInformation) (ri : RTCPReceiveInformation)
    (h : mapLookup s.receivedInfoMap t.senderSsrc = some ri) :
    mapLookup (handleTMMBN (some t) (s, info)).1.receivedInfoMap t.senderSsrc =
      some { ri with tmmbn := ri.tmmbn ++ t.items } ∧
    (handleTMMBN (some t) (s, info)).2.kTmmbn = true := by
  unfold handleTMMBN
  simp [h, mapLookup_mapInsert]

theorem handleTMMBN_appends_witness :
    mapLookup exTmmbnState.receivedInfoMap 1 =
      some { RTCPReceiveInformation.empty with tmmbn := [exTmmbnItemOld] } ∧
    (handleTMMBN (some ⟨1, [exTmmbnItemNew]⟩)
      (exTmmbnState, RTCPPacketInformation.init)).2.kTmmbn = true := by
  refine ⟨by rfl, ?_⟩
  exact (handleTMMBN_appends ⟨1, [exTmmbnItemNew]⟩ exTmmbnState
    RTCPPacketInformation.init
    { RTCPReceiveInformation.empty with tmmbn := [exTmmbnItemOld] }
    (by rfl)).2

/-- C2: evidence for the code bug.  On a freshly constructed receiver
no Sender Report has been stored (`_lastReceivedSRNTPsecs = 0`), yet
`NTP()` returns `true` — the code's own TODO (line 220) and the spec
require `false` here. -/
theorem ntp_returns_true_without_sr :
    (RTCPReceiver.init false 0).lastReceivedSRNTPsecs = 0 ∧
    ((RTCPReceiver.init false 0).NTP).1 = true := by
  exact ⟨rfl, rfl⟩

/-- C4 counterexample: `exByeState` holds a `ReceiveInfo` for SSRC 1
with `last_time_received_ms = 5 > 0`.  After `HandleBYE` from SSRC 1
and a single `UpdateRTCPReceiveInformationTimers` sweep (at `now =
30000`, far past the 5-interval timeout, with no intervening RTCP),
the `ReceiveInfo` is still in the map — the claim's "a single
subsequent call removes the ReceiveInfo" is false at this input. -/
theorem bye_single_sweep_counterexample :
    (mapLookup
      (RTCPReceiver.UpdateRTCPReceiveInformationTimers 30000
        (handleBYE (some ⟨1⟩) exByeState)).2.receivedInfoMap 1).isSome =
      true := by
  rfl

theorem updateTimers_infoMap (now : Int) (s : RTCPReceiver) :
    (RTCPReceiver.UpdateRTCPReceiveInformationTimers now s).2.receivedInfoMap =
      (sweepInfoMap now s.receivedInfoMap).2 := rfl

/-- C4 (amended): handling a BYE from SSRC `b` purges the report-block
entries keyed on `b` immediately and marks the `ReceiveInfo`
`ready_for_delete`; a single subsequent timer sweep removes the
`ReceiveInfo` exactly when its `last_time_received_ms` is not positive;
when `last_time_received_ms > 0`, a first sweep past the 5-interval
timeout zeroes the timestamp and a second sweep removes the entry. -/
theorem bye_then_sweep_spec (b : Nat) (s : RTCPReceiver)
    (ri : RTCPReceiveInformation)
    (hnd : keysNodup s.receivedInfoMap)
    (h : mapLookup s.receivedInfoMap b = some ri) :
    (∀ src,
      lookup2 (handleBYE (some ⟨b⟩) s).receivedReportBlockMap src b = none) ∧
    mapLookup (handleBYE (some ⟨b⟩) s).receivedInfoMap b =
      some { ri with ready_for_delete := true } ∧
    (∀ now : Int,
      mapLookup
        (RTCPReceiver.UpdateRTCPReceiveInformationTimers now
          (handleBYE (some ⟨b⟩) s)).2.receivedInfoMap b = none ↔
      ¬ ri.last_time_received_ms > 0) ∧
    (∀ now1 now2 : Int, ri.last_time_received_ms > 0 →
      now1 - ri.last_time_received_ms > 5 * RTCP_INTERVAL_AUDIO_MS →
      mapLookup
        (RTCPReceiver.UpdateRTCPReceiveInformationTimers now2
          (RTCPReceiver.UpdateRTCPReceiveInformationTimers now1
            (handleBYE (some ⟨b⟩) s)).2).2.receivedInfoMap b = none) := by
  have hinfo := handleBYE_infoMap b s ri h
  have hmark : mapLookup (handleBYE (some ⟨b⟩) s).receivedInfoMap b =
      some { ri with ready_for_delete := true } := by
    rw [hinfo, mapLookup_mapInsert]
    simp
  have hnd' : keysNodup (handleBYE (some ⟨b⟩) s).receivedInfoMap := by
    rw [hinfo]
    exact keysNodup_mapInsert _ _ _ hnd
  refine ⟨?_, hmark, ?_, ?_⟩
  · intro src
    rw [handleBYE_rbMap]
    unfold lookup2
    rw [mapLookup_map_value]
    cases hsrc : mapLookup s.receivedReportBlockMap src with
    | none => simp
    | some inner =>
      simp [mapLookup_mapErase]
  · intro now
    rw [updateTimers_infoMap, sweep_lookup_spec now _ b _ hnd' hmark]
    by_cases b1 : ri.last_time_received_ms > 0
    · by_cases b2 : now - ri.last_time_received_ms > 5 * RTCP_INTERVAL_AUDIO_MS <;>
        simp [b1, b2]
    · simp [b1]
  · intro now1 now2 hb1 hb2
    have hfirst : mapLookup
        (sweepInfoMap now1 (handleBYE (some ⟨b⟩) s).receivedInfoMap).2 b =
        some { ri with
                 ready_for_delete := true
                 tmmbr := []
                 last_time_received_ms := 0 } := by
      rw [sweep_lookup_spec now1 _ b _ hnd' hmark]
      simp [hb1, hb2]
    have hnd2 : keysNodup
        (sweepInfoMap now1 (handleBYE (some ⟨b⟩) s).receivedInfoMap).2 :=
      sweep_keysNodup _ _ hnd'
    rw [updateTimers_infoMap, updateTimers_infoMap,
      sweep_lookup_spec now2 _ b _ hnd2 hfirst]
    simp

theorem bye_then_sweep_spec_witness :
    keysNodup exByeState.receivedInfoMap ∧
    mapLookup (handleBYE (some ⟨1⟩) exByeState).receivedInfoMap 1 =
      some { RTCPReceiveInformation.empty with
               last_time_received_ms := 5, ready_for_delete := true } ∧
    mapLookup
      (RTCPReceiver.UpdateRTCPReceiveInformationTimers 0
        (RTCPReceiver.UpdateRTCPReceiveInformationTimers 30000
          (handleBYE (some ⟨1⟩) exByeState)).2).2.receivedInfoMap 1 = none := by
  have h := bye_then_sweep_spec 1 exByeState
    { RTCPReceiveInformation.empty with last_time_received_ms := 5 }
    ⟨rfl, trivial⟩ (by rfl)
  exact ⟨⟨rfl, trivial⟩, h.2.1, h.2.2.2 30000 0 (by decide) (by decide)⟩

/-- C5: `RtcpRrTimeout` returns `false` when no RR has ever been
received (`last_received_rr_ms = 0`); otherwise it returns `true`
exactly when `now - last_received_rr_ms > 3 * interval_ms`; and when it
returns `true` it zeroes `last_received_rr_ms`, so any subsequent call
(before a new RR) returns `false` — the signal fires at most once
between successive RRs. -/
theorem rtcpRrTimeout_spec (nowMs rtcp_interval_ms : Int)
    (s : RTCPReceiver) :
    (s.lastReceivedRrMs = 0 →
      RTCPReceiver.RtcpRrTimeout nowMs rtcp_interval_ms s = (false, s)) ∧
    (s.lastReceivedRrMs ≠ 0 →
      ((RTCPReceiver.RtcpRrTimeout nowMs rtcp_interval_ms s).1 = true ↔
        nowMs - s.lastReceivedRrMs > 3 * rtcp_interval_ms)) ∧
    ((RTCPReceiver.RtcpRrTimeout nowMs rtcp_interval_ms s).1 = true →
      (RTCPReceiver.RtcpRrTimeout nowMs rtcp_interval_ms
        s).2.lastReceivedRrMs = 0 ∧
      ∀ n i : Int,
        (RTCPReceiver.RtcpRrTimeout n i
          (RTCPReceiver.RtcpRrTimeout nowMs rtcp_interval_ms s).2).1 =
          false) := by
  refine ⟨?_, ?_, ?_⟩
  · intro h0
    simp [RTCPReceiver.RtcpRrTimeout, h0]
  · intro h0
    by_cases ht : nowMs > s.lastReceivedRrMs + kRrTimeoutIntervals * rtcp_interval_ms
    · simp only [RTCPReceiver.RtcpRrTimeout, h0, if_neg h0, if_pos ht]
      simp only [kRrTimeoutIntervals] at ht
      constructor
      · intro _
        omega
      · intro _
        rfl
    · simp only [RTCPReceiver.RtcpRrTimeout, if_neg h0, if_neg ht]
      simp only [kRrTimeoutIntervals] at ht
      constructor
      · intro hc
        exact absurd hc (by simp)
      · intro hc
        omega
  · intro htr
    by_cases h0 : s.lastReceivedRrMs = 0
    · simp [RTCPReceiver.RtcpRrTimeout, h0] at htr
    · by_cases ht : nowMs > s.lastReceivedRrMs + kRrTimeoutIntervals * rtcp_interval_ms
      · refine ⟨by simp [RTCPReceiver.RtcpRrTimeout, h0, ht], ?_⟩
        intro n i
        simp [RTCPReceiver.RtcpRrTimeout, h0, ht]
      · simp [RTCPReceiver.RtcpRrTimeout, h0, ht] at htr

theorem rtcpRrTimeout_spec_witness :
    exRrState.lastReceivedRrMs ≠ 0 ∧
    (RTCPReceiver.RtcpRrTimeout 10000 1 exRrState).1 = true ∧
    (RTCPReceiver.RtcpRrTimeout 20000 1
      (RTCPReceiver.RtcpRrTimeout 10000 1 exRrState).2).1 = false := by
  have h := rtcpRrTimeout_spec 10000 1 exRrState
  have h1 : (RTCPReceiver.RtcpRrTimeout 10000 1 exRrState).1 = true :=
    (h.2.1 (by decide)).mpr (by decide)
  exact ⟨by decide, h1, (h.2.2 h1).2 20000 1⟩

/-- C7 counterexample: SSRC 10 is registered and the DLRR entry has a
non-zero `last_rr`, but `xr_rrtr_status` is disabled, so handling the
DLRR entry does not set the `kXrDlrrReportBlock` flag (only
`xr_dlrr_item`) — the claim's unconditional "sets the
kXrDlrrReportBlock flag" is false at this input. -/
theorem xr_dlrr_flag_counterexample :
    10 ∈ exXrState.registered_ssrcs ∧
    exRti.lastRr ≠ 0 ∧
    exXrState.xr_rrtr_status = false ∧
    (handleXrDlrrReportBlock exClock exRti
      (exXrState, RTCPPacketInformation.init)).2.kXrDlrrReportBlock =
      false := by
  refine ⟨by decide, by decide, by rfl, by rfl⟩

/-- C7 (amended): for a DLRR entry whose target SSRC is registered,
handling sets the `xr_dlrr_item` indicator; the `kXrDlrrReportBlock`
flag is set — and the RTT value `xr_rr_rtt_ms` computed and stored —
exactly when additionally `xr_rrtr_status` is enabled and the entry's
`last_rr` is non-zero; otherwise both the flag and `xr_rr_rtt_ms` are
left unchanged.  An unregistered target changes nothing. -/
theorem handleXrDlrrReportBlock_spec (env : ClockEnv)
    (rti : ReceiveTimeInfoPkt) (s : RTCPReceiver)
    (info : RTCPPacketInformation) :
    (rti.ssrc ∉ s.registered_ssrcs →
      handleXrDlrrReportBlock env rti (s, info) = (s, info)) ∧
    (rti.ssrc ∈ s.registered_ssrcs →
      (handleXrDlrrReportBlock env rti (s, info)).2.xr_dlrr_item = true ∧
      (s.xr_rrtr_status = true → rti.lastRr ≠ 0 →
        (handleXrDlrrReportBlock env rti (s, info)).1.xr_rr_rtt_ms =
          compactNtpRttToMs
            (sub32 (sub32 env.nowCompact rti.delaySinceLastRr) rti.lastRr) ∧
        (handleXrDlrrReportBlock env rti (s, info)).2.kXrDlrrReportBlock =
          true) ∧
      (s.xr_rrtr_status = false ∨ rti.lastRr = 0 →
        (handleXrDlrrReportBlock env rti (s, info)).1.xr_rr_rtt_ms =
          s.xr_rr_rtt_ms ∧
        (handleXrDlrrReportBlock env rti (s, info)).2.kXrDlrrReportBlock =
          info.kXrDlrrReportBlock)) := by
  by_cases hreg : rti.ssrc ∈ s.registered_ssrcs
  · by_cases hst : s.xr_rrtr_status = true
    · by_cases hlr : rti.lastRr = 0 <;>
        simp [handleXrDlrrReportBlock, hreg, hst, hlr]
    · have hst' : s.xr_rrtr_status = false := by
        simpa using hst
      simp [handleXrDlrrReportBlock, hreg, hst']
  · simp [handleXrDlrrReportBlock, hreg]

theorem handleXrDlrrReportBlock_spec_witness :
    10 ∈ exXrStateOn.registered_ssrcs ∧
    exXrStateOn.xr_rrtr_status = true ∧
    exRti.lastRr ≠ 0 ∧
    (handleXrDlrrReportBlock exClock exRti
      (exXrStateOn, RTCPPacketInformation.init)).2.kXrDlrrReportBlock =
      true := by
  have h := handleXrDlrrReportBlock_spec exClock exRti exXrStateOn
    RTCPPacketInformation.init
  exact ⟨by decide, by rfl, by decide,
    ((h.2 (by decide)).2.1 (by rfl) (by decide)).2⟩

/-- C9: `GetAndResetXrRrRtt` fails (returns `none`, modelling `false`)
exactly when `xr_rr_rtt_ms` is the sentinel `0`; on success it returns
the stored RTT and resets `xr_rr_rtt_ms` to `0`, so an immediate second
call fails. -/
theorem getAndResetXrRrRtt_spec (s : RTCPReceiver) :
    ((RTCPReceiver.GetAndResetXrRrRtt s).1 = none ↔ s.xr_rr_rtt_ms = 0) ∧
    (s.xr_rr_rtt_ms ≠ 0 →
      (RTCPReceiver.GetAndResetXrRrRtt s).1 = some s.xr_rr_rtt_ms ∧
      (RTCPReceiver.GetAndResetXrRrRtt s).2.xr_rr_rtt_ms = 0 ∧
      (RTCPReceiver.GetAndResetXrRrRtt
        (RTCPReceiver.GetAndResetXrRrRtt s).2).1 = none) := by
  unfold RTCPReceiver.GetAndResetXrRrRtt
  by_cases h : s.xr_rr_rtt_ms = 0 <;> simp [h]

theorem getAndResetXrRrRtt_spec_witness :
    exXrRttState.xr_rr_rtt_ms ≠ 0 ∧
    (RTCPReceiver.GetAndResetXrRrRtt exXrRttState).1 =
      some exXrRttState.xr_rr_rtt_ms ∧
    (RTCPReceiver.GetAndResetXrRrRtt
      (RTCPReceiver.GetAndResetXrRrRtt exXrRttState).2).1 = none := by
  have h := (getAndResetXrRrRtt_spec exXrRttState).2 (by decide)
  exact ⟨by decide, h.1, h.2.2⟩

/-- C10: `LastReceivedReceiverReport` returns `-1` when no
`ReceiveInfo` exists; otherwise (for the reachable states, whose
timestamps are clock readings `≥ 0`) it returns the maximum
`last_time_received_ms` over all stored `ReceiveInfo`s.  It is a pure
function of the state (the model makes non-mutation intrinsic). -/
theorem lastReceivedReceiverReport_spec (s : RTCPReceiver) :
    (s.receivedInfoMap = [] →
      RTCPReceiver.LastReceivedReceiverReport s = -1) ∧
    (s.receivedInfoMap ≠ [] →
      (∀ p ∈ s.receivedInfoMap, (0 : Int) ≤ p.2.last_time_received_ms) →
      (∃ p ∈ s.receivedInfoMap,
        RTCPReceiver.LastReceivedReceiverReport s =
          p.2.last_time_received_ms) ∧
      ∀ p ∈ s.receivedInfoMap,
        p.2.last_time_received_ms ≤
          RTCPReceiver.LastReceivedReceiverReport s) := by
  obtain ⟨d1, _, d3⟩ := foldlMax_spec s.receivedInfoMap (-1)
  constructor
  · intro h
    simp [RTCPReceiver.LastReceivedReceiverReport, h]
  · intro hne hpos
    refine ⟨?_, d3⟩
    rcases d1 with d1 | d1
    · exfalso
      obtain ⟨p, hp⟩ := List.exists_mem_of_ne_nil _ hne
      have h1 := d3 p hp
      have h2 := hpos p hp
      rw [d1] at h1
      omega
    · exact d1

theorem lastReceivedReceiverReport_spec_witness :
    exInfoMapState.receivedInfoMap ≠ [] ∧
    (∃ p ∈ exInfoMapState.receivedInfoMap,
      RTCPReceiver.LastReceivedReceiverReport exInfoMapState =
        p.2.last_time_received_ms) ∧
    ∀ p ∈ exInfoMapState.receivedInfoMap,
      p.2.last_time_received_ms ≤
        RTCPReceiver.LastReceivedReceiverReport exInfoMapState := by
  have h := (lastReceivedReceiverReport_spec exInfoMapState).2
    (by decide) (by decide)
  exact ⟨by decide, h.1, h.2⟩

theorem processBlocks_append (env : ClockEnv) (pre : List Block)
    (bs : List (Option Block))
    (si : RTCPReceiver × RTCPPacketInformation) :
    processBlocks env (pre.map some ++ bs) si =
      processBlocks env bs (processBlocks env (pre.map some) si) := by
  induction pre generalizing si with
  | nil => simp [processBlocks]
  | cons b pre ih =>
    obtain ⟨s, info⟩ := si
    simp only [List.map_cons, List.cons_append, processBlocks]
    exact ih _

/-- C3: if the first RTCP common header of a datagram fails to parse,
`IncomingPacket` returns `false`, no state is mutated and the packet
information stays initial (so no observer callback fires); if instead
a header after the first fails to parse, the walk stops at that block,
`num_skipped_packets` is incremented by one on top of the effects of
the earlier successfully parsed blocks (which are all kept, as is their
accumulated packet information), and `IncomingPacket` returns `true`. -/
theorem parse_error_boundary_spec (env : ClockEnv) :
    (∀ (rest : List (Option Block)) (s : RTCPReceiver),
      ParseCompoundPacket env (none :: rest) s =
        (false, s, RTCPPacketInformation.init) ∧
      IncomingPacket env (none :: rest) s = (false, s)) ∧
    (∀ (pre : List Block) (rest : List (Option Block)) (s : RTCPReceiver),
      pre ≠ [] →
      ParseCompoundPacket env (pre.map some ++ none :: rest) s =
        (true,
         warnUpdate env.nowMs
           { (processBlocks env (pre.map some)
               (s, RTCPPacketInformation.init)).1 with
               num_skipped_packets :=
                 (processBlocks env (pre.map some)
                   (s, RTCPPacketInformation.init)).1.num_skipped_packets +
                   1 },
         (processBlocks env (pre.map some)
           (s, RTCPPacketInformation.init)).2) ∧
      (IncomingPacket env (pre.map some ++ none :: rest) s).1 = true) := by
  constructor
  · intro rest s
    constructor
    · rfl
    · rfl
  · intro pre rest s hpre
    match pre, hpre with
    | b :: pre, _ =>
      have hsplit := processBlocks_append env (b :: pre) (none :: rest)
        (s, RTCPPacketInformation.init)
      have hP : ParseCompoundPacket env
          ((b :: pre).map some ++ none :: rest) s =
          (true,
           warnUpdate env.nowMs
             { (processBlocks env ((b :: pre).map some)
                 (s, RTCPPacketInformation.init)).1 with
                 num_skipped_packets :=
                   (processBlocks env ((b :: pre).map some)
                     (s, RTCPPacketInformation.init)).1.num_skipped_packets +
                     1 },
           (processBlocks env ((b :: pre).map some)
             (s, RTCPPacketInformation.init)).2) := by
        show (true,
            warnUpdate env.nowMs
              (processBlocks env ((b :: pre).map some ++ none :: rest)
                (s, RTCPPacketInformation.init)).1,
            (processBlocks env ((b :: pre).map some ++ none :: rest)
              (s, RTCPPacketInformation.init)).2) = _
        rw [hsplit]
        cases hfi : processBlocks env ((b :: pre).map some)
            (s, RTCPPacketInformation.init) with
        | mk s1 i1 => simp [processBlocks]
      refine ⟨hP, ?_⟩
      simp only [List.map_cons, List.cons_append] at hP ⊢
      simp [IncomingPacket, hP]

theorem parse_error_boundary_spec_witness :
    ([Block.unknown] : List Block) ≠ [] ∧
    (IncomingPacket exClock
      (([Block.unknown] : List Block).map some ++ none :: [])
      (RTCPReceiver.init false 0)).1 = true := by
  exact ⟨by simp,
    ((parse_error_boundary_spec exClock).2 [Block.unknown] []
      (RTCPReceiver.init false 0) (by simp)).2⟩

/-- The rational characterisation of `newAvg`: it is the floor of the
exact value of the source's float expression
`(ac/(ac+1))*avgRTT + (1/(ac+1))*rtt` plus `0.5`. -/
theorem newAvg_eq_floor (n : Nat) (avg rtt : Int) :
    newAvg n avg rtt =
      ⌊((n : ℚ) / ((n : ℚ) + 1)) * (avg : ℚ) +
        (1 / ((n : ℚ) + 1)) * (rtt : ℚ) + 1 / 2⌋ := by
  have hne : ((n : ℚ) + 1) ≠ 0 := by positivity
  have hq : ((n : ℚ) / ((n : ℚ) + 1)) * (avg : ℚ) +
      (1 / ((n : ℚ) + 1)) * (rtt : ℚ) + 1 / 2 =
      (((2 * ((n : Int) * avg + rtt) + ((n : Int) + 1)) : Int) : ℚ) /
        ((2 * (n + 1) : Nat) : ℚ) := by
    field_simp
    ring
  rw [hq, Rat.floor_intCast_div_natCast]
  unfold newAvg
  rw [Int.fdiv_eq_ediv _ (by positivity)]
  congr 1

theorem newAvg_bounds (n : Nat) (avg rtt m M : Int)
    (h1 : m ≤ avg) (h2 : avg ≤ M) (h3 : m ≤ rtt) (h4 : rtt ≤ M) :
    m ≤ newAvg n avg rtt ∧ newAvg n avg rtt ≤ M := by
  have hn : (0 : Int) ≤ (n : Int) := by positivity
  have hpos : (0 : Int) < 2 * ((n : Int) + 1) := by positivity
  unfold newAvg
  rw [Int.fdiv_eq_ediv _ (by positivity)]
  constructor
  · rw [Int.le_ediv_iff_mul_le hpos]
    nlinarith [mul_le_mul_of_nonneg_left h1 hn]
  · rw [← Int.lt_add_one_iff, Int.ediv_lt_iff_lt_mul hpos]
    nlinarith [mul_le_mul_of_nonneg_left h2 hn]

theorem lookup2_insert2 (src rem : Nat) (v : RTCPReportBlockInformation)
    (m : List (Nat × List (Nat × RTCPReportBlockInformation)))
    (src' rem' : Nat) :
    lookup2 (insert2 src rem v m) src' rem' =
      if src = src' ∧ rem = rem' then some v else lookup2 m src' rem' := by
  by_cases h1 : src = src'
  · subst h1
    by_cases h2 : rem = rem'
    · subst h2
      simp [lookup2, insert2, mapLookup_mapInsert]
    · cases hm : mapLookup m src <;>
        simp [lookup2, insert2, mapLookup_mapInsert, h2, hm, mapLookup]
  · simp [lookup2, insert2, mapLookup_mapInsert, h1]

theorem updateRttStats_eq (rtt : Int) (r : RTCPReportBlockInformation) :
    updateRttStats rtt r =
      { r with
          maxRTT := if rtt > r.maxRTT then rtt else r.maxRTT
          minRTT :=
            if r.minRTT = 0 then rtt
            else if rtt < r.minRTT then rtt else r.minRTT
          RTT := rtt
          avgRTT :=
            if r.numAverageCalcs ≠ 0 then newAvg r.numAverageCalcs r.avgRTT rtt
            else rtt
          numAverageCalcs := r.numAverageCalcs + 1 } := by
  unfold updateRttStats
  by_cases hmax : rtt > r.maxRTT <;> by_cases hmin0 : r.minRTT = 0 <;>
    by_cases hlt : rtt < r.minRTT <;> by_cases hn : r.numAverageCalcs = 0 <;>
    simp [hmax, hmin0, hlt, hn]

theorem updateRttStats_inv (rtt : Int) (r : RTCPReportBlockInformation)
    (hr : RttInv r) (hrtt : 1 ≤ rtt) :
    RttInv (updateRttStats rtt r) ∧
    (r.numAverageCalcs ≠ 0 → (updateRttStats rtt r).minRTT ≤ r.minRTT) ∧
    r.maxRTT ≤ (updateRttStats rtt r).maxRTT ∧
    (updateRttStats rtt r).numAverageCalcs = r.numAverageCalcs + 1 := by
  rw [updateRttStats_eq]
  by_cases hn : r.numAverageCalcs = 0
  · have hz : r.minRTT = 0 ∧ r.avgRTT = 0 ∧ r.maxRTT = 0 := by
      simpa [RttInv, hn] using hr
    have h01 : r.maxRTT < rtt := by omega
    simp [RttInv, hn, hz.1, h01]
    omega
  · have hinv : 1 ≤ r.minRTT ∧ r.minRTT ≤ r.avgRTT ∧ r.avgRTT ≤ r.maxRTT := by
      simpa [RttInv, hn] using hr
    have hmin0 : ¬ r.minRTT = 0 := by omega
    have hb := newAvg_bounds r.numAverageCalcs r.avgRTT rtt
      (min r.minRTT rtt) (max r.maxRTT rtt)
      (le_trans (min_le_left _ _) hinv.2.1)
      (le_trans hinv.2.2 (le_max_left _ _))
      (min_le_right _ _) (le_max_right _ _)
    by_cases hmax : rtt > r.maxRTT <;> by_cases hlt : rtt < r.minRTT <;>
      simp [RttInv, hn, hmin0, hmax, hlt] <;>
      constructor <;> try omega

theorem RttInv_congr (a b : RTCPReportBlockInformation)
    (h1 : a.minRTT = b.minRTT) (h2 : a.avgRTT = b.avgRTT)
    (h3 : a.maxRTT = b.maxRTT) (h4 : a.numAverageCalcs = b.numAverageCalcs) :
    RttInv a ↔ RttInv b := by
  unfold RttInv
  rw [h1, h2, h3, h4]

theorem rbiUpdate_inv (ro : Bool) (nowCompact : Nat) (remote : Nat)
    (rb : ReportBlockPkt) (old : RTCPReportBlockInformation)
    (hro : ro = false) (hrb : rb.lastSr ≠ 0)
    (hsample : 1 ≤ rttSample nowCompact rb) (hold : RttInv old) :
    RttInv (rbiUpdate ro nowCompact remote rb old) ∧
    (old.numAverageCalcs ≠ 0 →
      (rbiUpdate ro nowCompact remote rb old).minRTT ≤ old.minRTT) ∧
    old.maxRTT ≤ (rbiUpdate ro nowCompact remote rb old).maxRTT ∧
    old.numAverageCalcs ≤
      (rbiUpdate ro nowCompact remote rb old).numAverageCalcs := by
  have key : ∀ b : RTCPReportBlockInformation,
      b.minRTT = old.minRTT → b.avgRTT = old.avgRTT → b.maxRTT = old.maxRTT →
      b.numAverageCalcs = old.numAverageCalcs →
      RttInv (updateRttStats (rttSample nowCompact rb) b) ∧
      (old.numAverageCalcs ≠ 0 →
        (updateRttStats (rttSample nowCompact rb) b).minRTT ≤ old.minRTT) ∧
      old.maxRTT ≤ (updateRttStats (rttSample nowCompact rb) b).maxRTT ∧
      old.numAverageCalcs ≤
        (updateRttStats (rttSample nowCompact rb) b).numAverageCalcs := by
    intro b h1 h2 h3 h4
    have h := updateRttStats_inv (rttSample nowCompact rb) b
      ((RttInv_congr b old h1 h2 h3 h4).mpr hold) hsample
    refine ⟨h.1, fun hn => ?_, ?_, ?_⟩
    · have ha := h.2.1 (by omega)
      omega
    · have ha := h.2.2.1
      omega
    · have ha := h.2.2.2
      omega
  unfold rbiUpdate
  by_cases hj : rb.jitter > old.remoteMaxJitter <;>
    simp only [hro, hrb, ne_eq, not_false_iff, and_true, and_self, hj,
      if_true, if_false, ite_true, ite_false, if_pos, eq_self_iff_true] <;>
    exact key _ rfl rfl rfl rfl

theorem handleReportBlock_map_pos (nowMs : Int) (nowCompact : Nat)
    (remote : Nat) (rb : ReportBlockPkt) (s : RTCPReceiver)
    (info : RTCPPacketInformation)
    (hreg : rb.sourceSsrc ∈ s.registered_ssrcs) :
    (handleReportBlock nowMs nowCompact remote rb
        (s, info)).1.receivedReportBlockMap =
      insert2 rb.sourceSsrc remote
        (rbiUpdate s.receiver_only nowCompact remote rb
          ((lookup2 s.receivedReportBlockMap rb.sourceSsrc remote).getD
            RTCPReportBlockInformation.empty))
        s.receivedReportBlockMap := by
  unfold handleReportBlock
  by_cases he : rb.extendedHighSeqNum >
      ((lookup2 s.receivedReportBlockMap rb.sourceSsrc remote).getD
        RTCPReportBlockInformation.empty).remoteReceiveBlock.extendedHighSeqNum <;>
    simp [hreg, he]

theorem handleReportBlock_ro (nowMs : Int) (nowCompact : Nat) (remote : Nat)
    (rb : ReportBlockPkt) (si : RTCPReceiver × RTCPPacketInformation) :
    (handleReportBlock nowMs nowCompact remote rb si).1.receiver_only =
      si.1.receiver_only := by
  obtain ⟨s, info⟩ := si
  unfold handleReportBlock
  by_cases hreg : rb.sourceSsrc ∈ s.registered_ssrcs
  · by_cases he : rb.extendedHighSeqNum >
        ((lookup2 s.receivedReportBlockMap rb.sourceSsrc remote).getD
          RTCPReportBlockInformation.empty).remoteReceiveBlock.extendedHighSeqNum <;>
      simp [hreg, he]
  · simp [hreg]

theorem handleReportBlock_neg (nowMs : Int) (nowCompact : Nat) (remote : Nat)
    (rb : ReportBlockPkt) (s : RTCPReceiver) (info : RTCPPacketInformation)
    (hreg : rb.sourceSsrc ∉ s.registered_ssrcs) :
    handleReportBlock nowMs nowCompact remote rb (s, info) = (s, info) := by
  unfold handleReportBlock
  simp [hreg]

theorem handleReportBlock_inv (nowMs : Int) (nowCompact : Nat) (remote : Nat)
    (rb : ReportBlockPkt) (s : RTCPReceiver) (info : RTCPPacketInformation)
    (hro : s.receiver_only = false) (hs : AllRttInv s)
    (hrb : rb.lastSr ≠ 0) (hsample : 1 ≤ rttSample nowCompact rb) :
    AllRttInv (handleReportBlock nowMs nowCompact remote rb (s, info)).1 ∧
    ∀ src rem x, lookup2 s.receivedReportBlockMap src rem = some x →
      ∃ y, lookup2 (handleReportBlock nowMs nowCompact remote rb
          (s, info)).1.receivedReportBlockMap src rem = some y ∧
        (x.numAverageCalcs ≠ 0 → y.minRTT ≤ x.minRTT) ∧
        x.maxRTT ≤ y.maxRTT ∧ x.numAverageCalcs ≤ y.numAverageCalcs := by
  by_cases hreg : rb.sourceSsrc ∈ s.registered_ssrcs
  · have hmap := handleReportBlock_map_pos nowMs nowCompact remote rb s info hreg
    have holdInv : RttInv ((lookup2 s.receivedReportBlockMap rb.sourceSsrc
        remote).getD RTCPReportBlockInformation.empty) := by
      cases hl : lookup2 s.receivedReportBlockMap rb.sourceSsrc remote with
      | none =>
        simp only [hl, Option.getD_none]
        simp [RttInv, RTCPReportBlockInformation.empty]
      | some x =>
        simp only [hl, Option.getD_some]
        exact hs _ _ _ hl
    have hstep := rbiUpdate_inv s.receiver_only nowCompact remote rb _
      hro hrb hsample holdInv
    constructor
    · intro src rem r hr
      rw [hmap, lookup2_insert2] at hr
      by_cases hkey : rb.sourceSsrc = src ∧ remote = rem
      · rw [if_pos hkey] at hr
        cases hr
        exact hstep.1
      · rw [if_neg hkey] at hr
        exact hs _ _ _ hr
    · intro src rem x hx
      by_cases hkey : rb.sourceSsrc = src ∧ remote = rem
      · obtain ⟨hk1, hk2⟩ := hkey
        subst hk1
        subst hk2
        have hox : (lookup2 s.receivedReportBlockMap rb.sourceSsrc
            remote).getD RTCPReportBlockInformation.empty = x := by
          simp [hx]
        rw [hox] at hstep
        refine ⟨rbiUpdate s.receiver_only nowCompact remote rb x, ?_,
          hstep.2.1, hstep.2.2.1, hstep.2.2.2⟩
        rw [hmap, hox, lookup2_insert2, if_pos ⟨rfl, rfl⟩]
      · exact ⟨x, by rw [hmap, lookup2_insert2, if_neg hkey]; exact hx,
          fun _ => le_refl _, le_refl _, le_refl _⟩
  · rw [handleReportBlock_neg nowMs nowCompact remote rb s info hreg]
    exact ⟨hs, fun src rem x hx =>
      ⟨x, hx, fun _ => le_refl _, le_refl _, le_refl _⟩⟩

/-- C6 counterexample: with `compact_ntp_to_ms` as the spec gives it
(`(x*1000 + 0x8000) >> 16`, no 1 ms clamp), the three report blocks of
`exRttEvents` (all with `last_sr = 1 ≠ 0`, receiver_only false) produce
the RTT samples 5 ms, 0 ms and 7 ms; the 0 ms sample re-arms the
`minRTT == 0` initialisation sentinel, so after the third block the
stored statistics have `minRTT = 7 > avgRTT = 4` — the claimed
`min_rtt ≤ avg_rtt` (and, after the second block, `min_rtt > 0`) is
false on this sequence. -/
theorem rtt_stats_counterexample :
    exRttState.receiver_only = false ∧
    exRttEvents.all (fun ev => ev.rb.lastSr != 0) = true ∧
    ((lookup2 (processRBEvents exRttEvents
        (exRttState, RTCPPacketInformation.init)).1.receivedReportBlockMap
        10 7).map
      (fun r => decide (r.minRTT ≤ r.avgRTT ∧ 0 < r.minRTT))) =
      some false := by
  refine ⟨rfl, by decide, by decide⟩

/-- C6 (amended): for every sequence of report blocks processed with
`last_sr ≠ 0` and `receiver_only = false`, *provided every computed RTT
sample is at least 1 ms* (as the real `CompactNtpRttToMs` guarantees by
clamping, but the spec's bare `(x*1000+0x8000) >> 16` does not), every
stored report-block record satisfies the RTT invariant — before the
first sample the statistics are zero-initialised, and after each update
`0 < min_rtt ≤ avg_rtt ≤ max_rtt`; moreover across the sequence
`min_rtt` is monotonically non-increasing once initialised and
`max_rtt` is monotonically non-decreasing. -/
theorem rtt_stats_invariant (evs : List RBEvent) (s : RTCPReceiver)
    (info : RTCPPacketInformation)
    (hro : s.receiver_only = false) (hs : AllRttInv s)
    (hev : ∀ ev ∈ evs, ev.rb.lastSr ≠ 0 ∧ 1 ≤ rttSample ev.nowCompact ev.rb) :
    AllRttInv (processRBEvents evs (s, info)).1 ∧
    ∀ src rem x, lookup2 s.receivedReportBlockMap src rem = some x →
      ∃ y, lookup2 (processRBEvents evs
          (s, info)).1.receivedReportBlockMap src rem = some y ∧
        (x.numAverageCalcs ≠ 0 → y.minRTT ≤ x.minRTT) ∧
        x.maxRTT ≤ y.maxRTT ∧ x.numAverageCalcs ≤ y.numAverageCalcs := by
  induction evs generalizing s info with
  | nil =>
    exact ⟨hs, fun src rem x hx =>
      ⟨x, hx, fun _ => le_refl _, le_refl _, le_refl _⟩⟩
  | cons e evs ih =>
    have he := hev e (by simp)
    have hstep := handleReportBlock_inv e.nowMs e.nowCompact e.remoteSSRC
      e.rb s info hro hs he.1 he.2
    have hro1 : (handleReportBlock e.nowMs e.nowCompact e.remoteSSRC e.rb
        (s, info)).1.receiver_only = false := by
      rw [handleReportBlock_ro]
      exact hro
    have hih := ih (handleReportBlock e.nowMs e.nowCompact e.remoteSSRC e.rb
        (s, info)).1
      (handleReportBlock e.nowMs e.nowCompact e.remoteSSRC e.rb (s, info)).2
      hro1 hstep.1 (fun ev hm => hev ev (by simp [hm]))
    have hfold : processRBEvents (e :: evs) (s, info) =
        processRBEvents evs
          ((handleReportBlock e.nowMs e.nowCompact e.remoteSSRC e.rb
              (s, info)).1,
           (handleReportBlock e.nowMs e.nowCompact e.remoteSSRC e.rb
              (s, info)).2) := rfl
    rw [hfold]
    refine ⟨hih.1, ?_⟩
    intro src rem x hx
    obtain ⟨y1, hy1, hmin1, hmax1, hn1⟩ := hstep.2 src rem x hx
    obtain ⟨y2, hy2, hmin2, hmax2, hn2⟩ := hih.2 src rem y1 hy1
    refine ⟨y2, hy2, fun hnz => le_trans (hmin2 (by omega)) (hmin1 hnz),
      le_trans hmax1 hmax2, le_trans hn1 hn2⟩

theorem rtt_stats_invariant_witness :
    exRttState.receiver_only = false ∧
    RttInv ((lookup2 (processRBEvents [⟨0, 329, 7, exRbPkt⟩]
      (exRttState, RTCPPacketInformation.init)).1.receivedReportBlockMap
        10 7).getD RTCPReportBlockInformation.empty) := by
  have h := rtt_stats_invariant [⟨0, 329, 7, exRbPkt⟩] exRttState
    RTCPPacketInformation.init rfl
    (by
      intro src rem r hr
      simp [exRttState, RTCPReceiver.init, lookup2, mapLookup] at hr)
    (by
      intro ev hm
      simp at hm
      subst hm
      exact ⟨by decide, by decide⟩)
  cases hl : lookup2 (processRBEvents [⟨0, 329, 7, exRbPkt⟩]
      (exRttState, RTCPPacketInformation.init)).1.receivedReportBlockMap
      10 7 with
  | none =>
    refine ⟨rfl, ?_⟩
    simp only [hl, Option.getD_none]
    simp [RttInv, RTCPReportBlockInformation.empty]
  | some r =>
    refine ⟨rfl, ?_⟩
    simp only [hl, Option.getD_some]
    exact h.1 10 7 r hl

/-! ### Algebra of per-projection step functions -/

theorem constOrId_comp {α : Type} (F G : α → α)
    (hF : constOrId F) (hG : constOrId G) :
    constOrId (fun x => G (F x)) := by
  rcases hG with hG | ⟨c, hG⟩
  · rcases hF with hF | ⟨c, hF⟩
    · refine Or.inl (fun x => ?_)
      show G (F x) = x
      rw [hF, hG]
    · refine Or.inr ⟨G c, fun x => ?_⟩
      show G (F x) = G c
      rw [hF]
  · refine Or.inr ⟨c, fun x => ?_⟩
    show G (F x) = c
    rw [hG]

theorem constOrId_idem {α : Type} (F : α → α) (h : constOrId F) (x : α) :
    F (F x) = F x := by
  rcases h with h | ⟨c, h⟩
  · rw [h, h]
  · rw [h, h]

theorem constOrId_foldl {α γ : Type} (g : γ → α → α) (l : List γ)
    (hg : ∀ a ∈ l, constOrId (g a)) :
    constOrId (fun x => l.foldl (fun x a => g a x) x) := by
  induction l with
  | nil => exact Or.inl (fun x => rfl)
  | cons a l ih =>
    have h1 := hg a (by simp)
    have h2 := ih (fun a ha => hg a (by simp [ha]))
    exact constOrId_comp (g a) _ h1 h2

theorem constOrId_runFold {α : Type} (f : Block → α → α)
    (hf : ∀ b, constOrId (f b)) (bs : List (Option Block)) :
    constOrId (fun x => runFold f bs x) := by
  induction bs with
  | nil => exact Or.inl (fun x => rfl)
  | cons ob rest ih =>
    cases ob with
    | none => exact Or.inl (fun x => rfl)
    | some b => exact constOrId_comp (f b) _ (hf b) ih

theorem capply_capply (c : MaxC) (p : Int × Nat) :
    capply c (capply c p) = capply c p := by
  unfold capply
  cases hc : c.mrtt <;> simp [hc, max_assoc, max_self]

theorem capply_cjoin (c d : MaxC) (p : Int × Nat) :
    capply (cjoin c d) p = capply d (capply c p) := by
  unfold capply cjoin
  cases hd : d.mrtt <;> cases hc : c.mrtt <;> simp [hc, hd, max_assoc]

theorem joinForm_idem (F : Option (Int × Nat) → Option (Int × Nat))
    (h : joinForm F) (x : Option (Int × Nat)) : F (F x) = F x := by
  rcases h with h | ⟨o, h⟩ | ⟨c, h⟩
  · rw [h, h]
  · rw [h, h]
  · simp only [h, Option.getD_some, capply_capply]

theorem joinForm_comp (F G : Option (Int × Nat) → Option (Int × Nat))
    (hF : joinForm F) (hG : joinForm G) :
    joinForm (fun x => G (F x)) := by
  rcases hG with hG | ⟨o', hG⟩ | ⟨c', hG⟩
  · rcases hF with hF | ⟨o, hF⟩ | ⟨c, hF⟩
    · refine Or.inl (fun x => ?_)
      show G (F x) = x
      rw [hF, hG]
    · refine Or.inr (Or.inl ⟨o, fun x => ?_⟩)
      show G (F x) = o
      rw [hF, hG]
    · refine Or.inr (Or.inr ⟨c, fun x => ?_⟩)
      show G (F x) = some (capply c (x.getD pbot))
      rw [hF, hG]
  · refine Or.inr (Or.inl ⟨o', fun x => ?_⟩)
    show G (F x) = o'
    rw [hG]
  · rcases hF with hF | ⟨o, hF⟩ | ⟨c, hF⟩
    · refine Or.inr (Or.inr ⟨c', fun x => ?_⟩)
      show G (F x) = some (capply c' (x.getD pbot))
      rw [hF, hG]
    · refine Or.inr (Or.inl ⟨some (capply c' (o.getD pbot)), fun x => ?_⟩)
      show G (F x) = some (capply c' (o.getD pbot))
      rw [hF, hG]
    · refine Or.inr (Or.inr ⟨cjoin c c', fun x => ?_⟩)
      show G (F x) = some (capply (cjoin c c') (x.getD pbot))
      rw [hF, hG]
      simp [capply_cjoin]

theorem joinForm_foldl {γ : Type}
    (g : γ → Option (Int × Nat) → Option (Int × Nat))
    (l : List γ) (hg : ∀ a ∈ l, joinForm (g a)) :
    joinForm (fun x => l.foldl (fun x a => g a x) x) := by
  induction l with
  | nil => exact Or.inl (fun x => rfl)
  | cons a l ih =>
    exact joinForm_comp (g a) _ (hg a (by simp))
      (ih (fun a ha => hg a (by simp [ha])))

theorem joinForm_runFold (f : Block → Option (Int × Nat) → Option (Int × Nat))
    (hf : ∀ b, joinForm (f b)) (bs : List (Option Block)) :
    joinForm (fun x => runFold f bs x) := by
  induction bs with
  | nil => exact Or.inl (fun x => rfl)
  | cons ob rest ih =>
    cases ob with
    | none => exact Or.inl (fun x => rfl)
    | some b => exact joinForm_comp (f b) _ (hf b) ih

theorem srStep_constOrId (rssrc : Nat) (env : ClockEnv) (b : Block) :
    constOrId (srStep rssrc env b) := by
  cases b with
  | sr p =>
    cases p with
    | none => exact Or.inl (fun x => rfl)
    | some q =>
      by_cases h : rssrc = q.senderSsrc
      · exact Or.inr ⟨(⟨q.ntpSecs, q.ntpFrac, q.rtpTimestamp, q.packetCount,
          q.octetCount⟩, env.ntpSecs, env.ntpFrac),
          fun x => by simp [srStep, h]⟩
      · exact Or.inl (fun x => by simp [srStep, h])
  | rr p => exact Or.inl (fun x => rfl)
  | sdes p => exact Or.inl (fun x => rfl)
  | bye p => exact Or.inl (fun x => rfl)
  | xr p => exact Or.inl (fun x => rfl)
  | nack p => exact Or.inl (fun x => rfl)
  | tmmbn p => exact Or.inl (fun x => rfl)
  | unknown => exact Or.inl (fun x => rfl)

theorem cnameChunkStep_constOrId (k : Nat) (c : Nat × String) :
    constOrId (cnameChunkStep k c) := by
  by_cases h : c.1 = k
  · exact Or.inr ⟨some (truncCname c.2), fun x => by simp [cnameChunkStep, h]⟩
  · exact Or.inl (fun x => by simp [cnameChunkStep, h])

theorem cnameStep_constOrId (k : Nat) (b : Block) :
    constOrId (cnameStep k b) := by
  cases b with
  | sdes p =>
    cases p with
    | none => exact Or.inl (fun x => rfl)
    | some q =>
      exact constOrId_foldl (fun c x => cnameChunkStep k c x) q.chunks
        (fun c _ => cnameChunkStep_constOrId k c)
  | bye p =>
    cases p with
    | none => exact Or.inl (fun x => rfl)
    | some q =>
      by_cases h : q.senderSsrc = k
      · exact Or.inr ⟨none, fun x => by simp [cnameStep, h]⟩
      · exact Or.inl (fun x => by simp [cnameStep, h])
  | sr p => exact Or.inl (fun x => rfl)
  | rr p => exact Or.inl (fun x => rfl)
  | xr p => exact Or.inl (fun x => rfl)
  | nack p => exact Or.inl (fun x => rfl)
  | tmmbn p => exact Or.inl (fun x => rfl)
  | unknown => exact Or.inl (fun x => rfl)

theorem rbMaximaStep_joinForm (reg : List Nat) (ro : Bool) (nowCompact : Nat)
    (remote : Nat) (key : Nat × Nat) (rb : ReportBlockPkt) :
    joinForm (rbMaximaStep reg ro nowCompact remote key rb) := by
  by_cases h : rb.sourceSsrc ∈ reg ∧ rb.sourceSsrc = key.1 ∧ remote = key.2
  · exact Or.inr (Or.inr ⟨rbContrib ro nowCompact rb, fun x => by
      unfold rbMaximaStep
      rw [if_pos h]⟩)
  · exact Or.inl (fun x => by
      unfold rbMaximaStep
      rw [if_neg h])

theorem maximaStep_joinForm (reg : List Nat) (ro : Bool) (nowCompact : Nat)
    (key : Nat × Nat) (b : Block) :
    joinForm (maximaStep reg ro nowCompact key b) := by
  cases b with
  | sr p =>
    cases p with
    | none => exact Or.inl (fun x => rfl)
    | some q =>
      exact joinForm_foldl
        (fun rb x => rbMaximaStep reg ro nowCompact q.senderSsrc key rb x)
        q.reportBlocks
        (fun rb _ => rbMaximaStep_joinForm reg ro nowCompact q.senderSsrc key rb)
  | rr p =>
    cases p with
    | none => exact Or.inl (fun x => rfl)
    | some q =>
      exact joinForm_foldl
        (fun rb x => rbMaximaStep reg ro nowCompact q.senderSsrc key rb x)
        q.reportBlocks
        (fun rb _ => rbMaximaStep_joinForm reg ro nowCompact q.senderSsrc key rb)
  | bye p =>
    cases p with
    | none => exact Or.inl (fun x => rfl)
    | some q =>
      by_cases h : q.senderSsrc = key.2
      · exact Or.inr (Or.inl ⟨none, fun x => by simp [maximaStep, h]⟩)
      · exact Or.inl (fun x => by simp [maximaStep, h])
  | sdes p => exact Or.inl (fun x => rfl)
  | xr p => exact Or.inl (fun x => rfl)
  | nack p => exact Or.inl (fun x => rfl)
  | tmmbn p => exact Or.inl (fun x => rfl)
  | unknown => exact Or.inl (fun x => rfl)

theorem nackStep_add (ro : Bool) (mainSsrc : Nat) (b : Block) :
    ∃ d, ∀ x, nackStep ro mainSsrc b x = x + d := by
  cases b with
  | nack p =>
    cases p with
    | none => exact ⟨0, fun x => rfl⟩
    | some q =>
      by_cases h : ro = true ∨ mainSsrc ≠ q.mediaSsrc
      · exact ⟨0, fun x => by simp [nackStep, h]⟩
      · exact ⟨q.packetIds.length, fun x => by simp [nackStep, h]⟩
  | sr p => exact ⟨0, fun x => rfl⟩
  | rr p => exact ⟨0, fun x => rfl⟩
  | sdes p => exact ⟨0, fun x => rfl⟩
  | bye p => exact ⟨0, fun x => rfl⟩
  | xr p => exact ⟨0, fun x => rfl⟩
  | tmmbn p => exact ⟨0, fun x => rfl⟩
  | unknown => exact ⟨0, fun x => rfl⟩

theorem nack_runFold_add (ro : Bool) (mainSsrc : Nat)
    (bs : List (Option Block)) :
    ∃ D, ∀ x, runFold (nackStep ro mainSsrc) bs x = x + D := by
  induction bs with
  | nil => exact ⟨0, fun x => rfl⟩
  | cons ob rest ih =>
    cases ob with
    | none => exact ⟨0, fun x => rfl⟩
    | some b =>
      obtain ⟨d, hd⟩ := nackStep_add ro mainSsrc b
      obtain ⟨D, hD⟩ := ih
      refine ⟨d + D, fun x => ?_⟩
      show runFold (nackStep ro mainSsrc) rest (nackStep ro mainSsrc b x) = _
      rw [hd, hD]
      omega

theorem ensureReceiveInfo_eq (ssrc : Nat) (s : RTCPReceiver) :
    ∃ m, ensureReceiveInfo ssrc s = { s with receivedInfoMap := m } := by
  unfold ensureReceiveInfo
  cases hm : mapLookup s.receivedInfoMap ssrc with
  | none => exact ⟨_, rfl⟩
  | some ri => exact ⟨s.receivedInfoMap, rfl⟩

theorem handleReportBlock_sender (nowMs : Int) (nowCompact : Nat)
    (remote : Nat) (rb : ReportBlockPkt)
    (si : RTCPReceiver × RTCPPacketInformation) :
    senderTupleOf (handleReportBlock nowMs nowCompact remote rb si).1 =
      senderTupleOf si.1 := by
  obtain ⟨s, info⟩ := si
  unfold handleReportBlock
  by_cases hreg : rb.sourceSsrc ∈ s.registered_ssrcs
  · by_cases he : rb.extendedHighSeqNum >
        ((lookup2 s.receivedReportBlockMap rb.sourceSsrc remote).getD
          RTCPReportBlockInformation.empty).remoteReceiveBlock.extendedHighSeqNum <;>
      simp [hreg, he, senderTupleOf]
  · simp [hreg]

theorem handleBlock_sender (env : ClockEnv) (b : Block)
    (si : RTCPReceiver × RTCPPacketInformation) :
    senderTupleOf (handleBlock env b si).1 =
      srStep si.1.remoteSSRC env b (senderTupleOf si.1) := by
  obtain ⟨s, info⟩ := si
  cases b with
  | sr p =>
    cases p with
    | none => rfl
    | some q =>
      show senderTupleOf (handleSenderReport env (some q) (s, info)).1 = _
      unfold handleSenderReport
      obtain ⟨m, hm⟩ := ensureReceiveInfo_eq q.senderSsrc s
      have hfold := foldl_preserve
        (fun rb si => handleReportBlock env.nowMs env.nowCompact
          q.senderSsrc rb si)
        (fun si => senderTupleOf si.1)
        (fun rb si => handleReportBlock_sender env.nowMs env.nowCompact
          q.senderSsrc rb si)
        q.reportBlocks
      simp only [hm]
      by_cases hC : s.remoteSSRC = q.senderSsrc
      · simp only [hC, eq_self_iff_true, if_true, ite_true]
        rw [hfold]
        simp [senderTupleOf, touchReceiveInfo, srStep, hC]
      · simp only [hC, if_false, ite_false]
        rw [hfold]
        simp [senderTupleOf, touchReceiveInfo, srStep, hC]
  | rr p =>
    cases p with
    | none => rfl
    | some q =>
      show senderTupleOf (handleReceiverReport env (some q) (s, info)).1 = _
      unfold handleReceiverReport
      obtain ⟨m, hm⟩ := ensureReceiveInfo_eq q.senderSsrc s
      have hfold := foldl_preserve
        (fun rb si => handleReportBlock env.nowMs env.nowCompact
          q.senderSsrc rb si)
        (fun si => senderTupleOf si.1)
        (fun rb si => handleReportBlock_sender env.nowMs env.nowCompact
          q.senderSsrc rb si)
        q.reportBlocks
      simp only [hm]
      rw [hfold]
      simp [senderTupleOf, touchReceiveInfo, srStep]
  | sdes p =>
    cases p with
    | none => rfl
    | some q =>
      show senderTupleOf (handleSDES (some q) (s, info)).1 = _
      unfold handleSDES
      have hfold := foldl_preserve
        (fun (c : Nat × String) (s : RTCPReceiver) =>
          { s with receivedCnameMap :=
              mapInsert c.1 (truncCname c.2) s.receivedCnameMap })
        (fun s => senderTupleOf s)
        (fun c s => rfl)
        q.chunks
      show senderTupleOf (q.chunks.foldl (fun s c =>
        { s with receivedCnameMap :=
            mapInsert c.1 (truncCname c.2) s.receivedCnameMap }) s) = _
      rw [hfold]
      rfl
  | bye p =>
    cases p with
    | none => rfl
    | some q =>
      show senderTupleOf (handleBYE (some q) s) = _
      unfold handleBYE
      cases hm : mapLookup s.receivedInfoMap q.senderSsrc <;>
        simp [hm, senderTupleOf, srStep]
  | xr p =>
    cases p with
    | none => rfl
    | some q =>
      show senderTupleOf (handleXr env (some q) (s, info)).1 = _
      unfold handleXr
      have hf1 := foldl_preserve
        (fun (r : Nat) si => handleXrReceiveReferenceTime env r si)
        (fun (si : RTCPReceiver × RTCPPacketInformation) =>
          senderTupleOf si.1)
        (fun r si => rfl)
        q.rrtrs
      have hf2 := foldl_preserve
        (fun (sub : List ReceiveTimeInfoPkt) si =>
          sub.foldl (fun si rti => handleXrDlrrReportBlock env rti si) si)
        (fun (si : RTCPReceiver × RTCPPacketInformation) =>
          senderTupleOf si.1)
        (fun sub si =>
          foldl_preserve
            (fun (rti : ReceiveTimeInfoPkt) si =>
              handleXrDlrrReportBlock env rti si)
            (fun (si : RTCPReceiver × RTCPPacketInformation) =>
              senderTupleOf si.1)
            (fun rti si => by
              obtain ⟨s', i'⟩ := si
              unfold handleXrDlrrReportBlock
              by_cases h1 : rti.ssrc ∈ s'.registered_ssrcs
              · by_cases h2 : s'.xr_rrtr_status = true
                · by_cases h3 : rti.lastRr = 0 <;>
                    simp [h1, h2, h3, senderTupleOf]
                · simp [h1, h2]
              · simp [h1])
            sub si)
        q.dlrrs
      rw [hf2, hf1]
      rfl
  | nack p =>
    cases p with
    | none => rfl
    | some q =>
      show senderTupleOf (handleNACK (some q) (s, info)).1 = _
      unfold handleNACK
      by_cases h1 : s.receiver_only = true ∨ s.main_ssrc ≠ q.mediaSsrc
      · simp [h1, srStep]
      · by_cases h2 : q.packetIds ≠ [] <;>
          simp [h1, h2, senderTupleOf, srStep]
  | tmmbn p =>
    cases p with
    | none => rfl
    | some q =>
      show senderTupleOf (handleTMMBN (some q) (s, info)).1 = _
      unfold handleTMMBN
      cases hm : mapLookup s.receivedInfoMap q.senderSsrc <;>
        simp [hm, senderTupleOf, srStep]
  | unknown => rfl

theorem handleReportBlock_cnameMap (nowMs : Int) (nowCompact : Nat)
    (remote : Nat) (rb : ReportBlockPkt)
    (si : RTCPReceiver × RTCPPacketInformation) :
    (handleReportBlock nowMs nowCompact remote rb si).1.receivedCnameMap =
      si.1.receivedCnameMap := by
  obtain ⟨s, info⟩ := si
  unfold handleReportBlock
  by_cases hreg : rb.sourceSsrc ∈ s.registered_ssrcs
  · by_cases he : rb.extendedHighSeqNum >
        ((lookup2 s.receivedReportBlockMap rb.sourceSsrc remote).getD
          RTCPReportBlockInformation.empty).remoteReceiveBlock.extendedHighSeqNum <;>
      simp [hreg, he]
  · simp [hreg]

theorem handleReportBlock_nack (nowMs : Int) (nowCompact : Nat)
    (remote : Nat) (rb : ReportBlockPkt)
    (si : RTCPReceiver × RTCPPacketInformation) :
    (handleReportBlock nowMs nowCompact remote rb si).1.nackRequests =
      si.1.nackRequests := by
  obtain ⟨s, info⟩ := si
  unfold handleReportBlock
  by_cases hreg : rb.sourceSsrc ∈ s.registered_ssrcs
  · by_cases he : rb.extendedHighSeqNum >
        ((lookup2 s.receivedReportBlockMap rb.sourceSsrc remote).getD
          RTCPReportBlockInformation.empty).remoteReceiveBlock.extendedHighSeqNum <;>
      simp [hreg, he]
  · simp [hreg]

theorem handleReportBlock_consts (nowMs : Int) (nowCompact : Nat)
    (remote : Nat) (rb : ReportBlockPkt)
    (si : RTCPReceiver × RTCPPacketInformation) :
    constsOf (handleReportBlock nowMs nowCompact remote rb si).1 =
      constsOf si.1 := by
  obtain ⟨s, info⟩ := si
  unfold handleReportBlock
  by_cases hreg : rb.sourceSsrc ∈ s.registered_ssrcs
  · by_cases he : rb.extendedHighSeqNum >
        ((lookup2 s.receivedReportBlockMap rb.sourceSsrc remote).getD
          RTCPReportBlockInformation.empty).remoteReceiveBlock.extendedHighSeqNum <;>
      simp [hreg, he, constsOf]
  · simp [hreg]

theorem handleBlock_consts (env : ClockEnv) (b : Block)
    (si : RTCPReceiver × RTCPPacketInformation) :
    constsOf (handleBlock env b si).1 = constsOf si.1 := by
  obtain ⟨s, info⟩ := si
  cases b with
  | sr p =>
    cases p with
    | none => rfl
    | some q =>
      show constsOf (handleSenderReport env (some q) (s, info)).1 = _
      unfold handleSenderReport
      obtain ⟨m, hm⟩ := ensureReceiveInfo_eq q.senderSsrc s
      have hfold := foldl_preserve
        (fun rb si => handleReportBlock env.nowMs env.nowCompact
          q.senderSsrc rb si)
        (fun si => constsOf si.1)
        (fun rb si => handleReportBlock_consts env.nowMs env.nowCompact
          q.senderSsrc rb si)
        q.reportBlocks
      simp only [hm]
      by_cases hC : s.remoteSSRC = q.senderSsrc
      · simp only [hC, eq_self_iff_true, if_true, ite_true]
        rw [hfold]
        simp [constsOf, touchReceiveInfo, hC]
      · simp only [hC, if_false, ite_false]
        rw [hfold]
        simp [constsOf, touchReceiveInfo]
  | rr p =>
    cases p with
    | none => rfl
    | some q =>
      show constsOf (handleReceiverReport env (some q) (s, info)).1 = _
      unfold handleReceiverReport
      obtain ⟨m, hm⟩ := ensureReceiveInfo_eq q.senderSsrc s
      have hfold := foldl_preserve
        (fun rb si => handleReportBlock env.nowMs env.nowCompact
          q.senderSsrc rb si)
        (fun si => constsOf si.1)
        (fun rb si => handleReportBlock_consts env.nowMs env.nowCompact
          q.senderSsrc rb si)
        q.reportBlocks
      simp only [hm]
      rw [hfold]
      simp [constsOf, touchReceiveInfo]
  | sdes p =>
    cases p with
    | none => rfl
    | some q =>
      show constsOf (handleSDES (some q) (s, info)).1 = _
      unfold handleSDES
      have hfold := foldl_preserve
        (fun (c : Nat × String) (s : RTCPReceiver) =>
          { s with receivedCnameMap :=
              mapInsert c.1 (truncCname c.2) s.receivedCnameMap })
        (fun s => constsOf s)
        (fun c s => rfl)
        q.chunks
      show constsOf (q.chunks.foldl (fun s c =>
        { s with receivedCnameMap :=
            mapInsert c.1 (truncCname c.2) s.receivedCnameMap }) s) = _
      rw [hfold]
  | bye p =>
    cases p with
    | none => rfl
    | some q =>
      show constsOf (handleBYE (some q) s) = _
      unfold handleBYE
      cases hm : mapLookup s.receivedInfoMap q.senderSsrc <;>
        simp [hm, constsOf]
  | xr p =>
    cases p with
    | none => rfl
    | some q =>
      show constsOf (handleXr env (some q) (s, info)).1 = _
      unfold handleXr
      have hf1 := foldl_preserve
        (fun (r : Nat) si => handleXrReceiveReferenceTime env r si)
        (fun (si : RTCPReceiver × RTCPPacketInformation) =>
          constsOf si.1)
        (fun r si => rfl)
        q.rrtrs
      have hf2 := foldl_preserve
        (fun (sub : List ReceiveTimeInfoPkt) si =>
          sub.foldl (fun si rti => handleXrDlrrReportBlock env rti si) si)
        (fun (si : RTCPReceiver × RTCPPacketInformation) =>
          constsOf si.1)
        (fun sub si =>
          foldl_preserve
            (fun (rti : ReceiveTimeInfoPkt) si =>
              handleXrDlrrReportBlock env rti si)
            (fun (si : RTCPReceiver × RTCPPacketInformation) =>
              constsOf si.1)
            (fun rti si => by
              obtain ⟨s', i'⟩ := si
              unfold handleXrDlrrReportBlock
              by_cases h1 : rti.ssrc ∈ s'.registered_ssrcs
              · by_cases h2 : s'.xr_rrtr_status = true
                · by_cases h3 : rti.lastRr = 0 <;>
                    simp [h1, h2, h3, constsOf]
                · simp [h1, h2]
              · simp [h1])
            sub si)
        q.dlrrs
      rw [hf2, hf1]
  | nack p =>
    cases p with
    | none => rfl
    | some q =>
      show constsOf (handleNACK (some q) (s, info)).1 = _
      unfold handleNACK
      by_cases h1 : s.receiver_only = true ∨ s.main_ssrc ≠ q.mediaSsrc
      · simp [h1]
      · by_cases h2 : q.packetIds ≠ [] <;> simp [h1, h2, constsOf]
  | tmmbn p =>
    cases p with
    | none => rfl
    | some q =>
      show constsOf (handleTMMBN (some q) (s, info)).1 = _
      unfold handleTMMBN
      cases hm : mapLookup s.receivedInfoMap q.senderSsrc <;>
        simp [hm, constsOf]
  | unknown => rfl

theorem sdes_fold_cname (chunks : List (Nat × String)) (s : RTCPReceiver)
    (k : Nat) :
    mapLookup (chunks.foldl
      (fun s c =>
        { s with receivedCnameMap :=
            mapInsert c.1 (truncCname c.2) s.receivedCnameMap }) s).receivedCnameMap k =
      chunks.foldl (fun x c => cnameChunkStep k c x)
        (mapLookup s.receivedCnameMap k) := by
  induction chunks generalizing s with
  | nil => rfl
  | cons c t ih =>
    simp only [List.foldl_cons]
    rw [ih]
    congr 1
    simp [cnameChunkStep, mapLookup_mapInsert]

theorem handleBlock_cname (env : ClockEnv) (b : Block) (k : Nat)
    (si : RTCPReceiver × RTCPPacketInformation) :
    mapLookup (handleBlock env b si).1.receivedCnameMap k =
      cnameStep k b (mapLookup si.1.receivedCnameMap k) := by
  obtain ⟨s, info⟩ := si
  cases b with
  | sr p =>
    cases p with
    | none => rfl
    | some q =>
      show mapLookup
        (handleSenderReport env (some q) (s, info)).1.receivedCnameMap k = _
      unfold handleSenderReport
      obtain ⟨m, hm⟩ := ensureReceiveInfo_eq q.senderSsrc s
      have hfold := foldl_preserve
        (fun rb si => handleReportBlock env.nowMs env.nowCompact
          q.senderSsrc rb si)
        (fun si => si.1.receivedCnameMap)
        (fun rb si => handleReportBlock_cnameMap env.nowMs env.nowCompact
          q.senderSsrc rb si)
        q.reportBlocks
      simp only [hm]
      by_cases hC : s.remoteSSRC = q.senderSsrc
      · simp only [hC, eq_self_iff_true, if_true, ite_true]
        rw [hfold]
        simp [touchReceiveInfo, cnameStep]
      · simp only [hC, if_false, ite_false]
        rw [hfold]
        simp [touchReceiveInfo, cnameStep]
  | rr p =>
    cases p with
    | none => rfl
    | some q =>
      show mapLookup
        (handleReceiverReport env (some q) (s, info)).1.receivedCnameMap k = _
      unfold handleReceiverReport
      obtain ⟨m, hm⟩ := ensureReceiveInfo_eq q.senderSsrc s
      have hfold := foldl_preserve
        (fun rb si => handleReportBlock env.nowMs env.nowCompact
          q.senderSsrc rb si)
        (fun si => si.1.receivedCnameMap)
        (fun rb si => handleReportBlock_cnameMap env.nowMs env.nowCompact
          q.senderSsrc rb si)
        q.reportBlocks
      simp only [hm]
      rw [hfold]
      simp [touchReceiveInfo, cnameStep]
  | sdes p =>
    cases p with
    | none => rfl
    | some q =>
      show mapLookup (handleSDES (some q) (s, info)).1.receivedCnameMap k = _
      unfold handleSDES
      show mapLookup (q.chunks.foldl (fun s c =>
        { s with receivedCnameMap :=
            mapInsert c.1 (truncCname c.2) s.receivedCnameMap })
        s).receivedCnameMap k = _
      rw [sdes_fold_cname]
      rfl
  | bye p =>
    cases p with
    | none => rfl
    | some q =>
      show mapLookup (handleBYE (some q) s).receivedCnameMap k = _
      unfold handleBYE
      cases hm : mapLookup s.receivedInfoMap q.senderSsrc <;>
        simp [hm, mapLookup_mapErase, cnameStep]
  | xr p =>
    cases p with
    | none => rfl
    | some q =>
      show mapLookup (handleXr env (some q) (s, info)).1.receivedCnameMap k = _
      unfold handleXr
      have hf1 := foldl_preserve
        (fun (r : Nat) si => handleXrReceiveReferenceTime env r si)
        (fun (si : RTCPReceiver × RTCPPacketInformation) =>
          si.1.receivedCnameMap)
        (fun r si => rfl)
        q.rrtrs
      have hf2 := foldl_preserve
        (fun (sub : List ReceiveTimeInfoPkt) si =>
          sub.foldl (fun si rti => handleXrDlrrReportBlock env rti si) si)
        (fun (si : RTCPReceiver × RTCPPacketInformation) =>
          si.1.receivedCnameMap)
        (fun sub si =>
          foldl_preserve
            (fun (rti : ReceiveTimeInfoPkt) si =>
              handleXrDlrrReportBlock env rti si)
            (fun (si : RTCPReceiver × RTCPPacketInformation) =>
              si.1.receivedCnameMap)
            (fun rti si => by
              obtain ⟨s', i'⟩ := si
              unfold handleXrDlrrReportBlock
              by_cases h1 : rti.ssrc ∈ s'.registered_ssrcs
              · by_cases h2 : s'.xr_rrtr_status = true
                · by_cases h3 : rti.lastRr = 0 <;> simp [h1, h2, h3]
                · simp [h1, h2]
              · simp [h1])
            sub si)
        q.dlrrs
      rw [hf2, hf1]
      rfl
  | nack p =>
    cases p with
    | none => rfl
    | some q =>
      show mapLookup (handleNACK (some q) (s, info)).1.receivedCnameMap k = _
      unfold handleNACK
      by_cases h1 : s.receiver_only = true ∨ s.main_ssrc ≠ q.mediaSsrc
      · simp [h1, cnameStep]
      · by_cases h2 : q.packetIds ≠ [] <;> simp [h1, h2, cnameStep]
  | tmmbn p =>
    cases p with
    | none => rfl
    | some q =>
      show mapLookup (handleTMMBN (some q) (s, info)).1.receivedCnameMap k = _
      unfold handleTMMBN
      cases hm : mapLookup s.receivedInfoMap q.senderSsrc <;>
        simp [hm, cnameStep]
  | unknown => rfl

theorem handleBlock_nack (env : ClockEnv) (b : Block)
    (si : RTCPReceiver × RTCPPacketInformation) :
    (handleBlock env b si).1.nackRequests =
      nackStep si.1.receiver_only si.1.main_ssrc b si.1.nackRequests := by
  obtain ⟨s, info⟩ := si
  cases b with
  | sr p =>
    cases p with
    | none => rfl
    | some q =>
      show (handleSenderReport env (some q) (s, info)).1.nackRequests = _
      unfold handleSenderReport
      obtain ⟨m, hm⟩ := ensureReceiveInfo_eq q.senderSsrc s
      have hfold := foldl_preserve
        (fun rb si => handleReportBlock env.nowMs env.nowCompact
          q.senderSsrc rb si)
        (fun si => si.1.nackRequests)
        (fun rb si => handleReportBlock_nack env.nowMs env.nowCompact
          q.senderSsrc rb si)
        q.reportBlocks
      simp only [hm]
      by_cases hC : s.remoteSSRC = q.senderSsrc
      · simp only [hC, eq_self_iff_true, if_true, ite_true]
        rw [hfold]
        simp [touchReceiveInfo, nackStep]
      · simp only [hC, if_false, ite_false]
        rw [hfold]
        simp [touchReceiveInfo, nackStep]
  | rr p =>
    cases p with
    | none => rfl
    | some q =>
      show (handleReceiverReport env (some q) (s, info)).1.nackRequests = _
      unfold handleReceiverReport
      obtain ⟨m, hm⟩ := ensureReceiveInfo_eq q.senderSsrc s
      have hfold := foldl_preserve
        (fun rb si => handleReportBlock env.nowMs env.nowCompact
          q.senderSsrc rb si)
        (fun si => si.1.nackRequests)
        (fun rb si => handleReportBlock_nack env.nowMs env.nowCompact
          q.senderSsrc rb si)
        q.reportBlocks
      simp only [hm]
      rw [hfold]
      simp [touchReceiveInfo, nackStep]
  | sdes p =>
    cases p with
    | none => rfl
    | some q =>
      show (handleSDES (some q) (s, info)).1.nackRequests = _
      unfold handleSDES
      have hfold := foldl_preserve
        (fun (c : Nat × String) (s : RTCPReceiver) =>
          { s with receivedCnameMap :=
              mapInsert c.1 (truncCname c.2) s.receivedCnameMap })
        (fun s => s.nackRequests)
        (fun c s => rfl)
        q.chunks
      show (q.chunks.foldl (fun s c =>
        { s with receivedCnameMap :=
            mapInsert c.1 (truncCname c.2) s.receivedCnameMap })
        s).nackRequests = _
      rw [hfold]
      rfl
  | bye p =>
    cases p with
    | none => rfl
    | some q =>
      show (handleBYE (some q) s).nackRequests = _
      unfold handleBYE
      cases hm : mapLookup s.receivedInfoMap q.senderSsrc <;>
        simp [hm, nackStep]
  | xr p =>
    cases p with
    | none => rfl
    | some q =>
      show (handleXr env (some q) (s, info)).1.nackRequests = _
      unfold handleXr
      have hf1 := foldl_preserve
        (fun (r : Nat) si => handleXrReceiveReferenceTime env r si)
        (fun (si : RTCPReceiver × RTCPPacketInformation) =>
          si.1.nackRequests)
        (fun r si => rfl)
        q.rrtrs
      have hf2 := foldl_preserve
        (fun (sub : List ReceiveTimeInfoPkt) si =>
          sub.foldl (fun si rti => handleXrDlrrReportBlock env rti si) si)
        (fun (si : RTCPReceiver × RTCPPacketInformation) =>
          si.1.nackRequests)
        (fun sub si =>
          foldl_preserve
            (fun (rti : ReceiveTimeInfoPkt) si =>
              handleXrDlrrReportBlock env rti si)
            (fun (si : RTCPReceiver × RTCPPacketInformation) =>
              si.1.nackRequests)
            (fun rti si => by
              obtain ⟨s', i'⟩ := si
              unfold handleXrDlrrReportBlock
              by_cases h1 : rti.ssrc ∈ s'.registered_ssrcs
              · by_cases h2 : s'.xr_rrtr_status = true
                · by_cases h3 : rti.lastRr = 0 <;> simp [h1, h2, h3]
                · simp [h1, h2]
              · simp [h1])
            sub si)
        q.dlrrs
      rw [hf2, hf1]
      rfl
  | nack p =>
    cases p with
    | none => rfl
    | some q =>
      show (handleNACK (some q) (s, info)).1.nackRequests = _
      unfold handleNACK
      by_cases h1 : s.receiver_only = true ∨ s.main_ssrc ≠ q.mediaSsrc
      · simp [h1, nackStep]
      · by_cases h2 : q.packetIds ≠ [] <;> simp [h1, h2, nackStep]
  | tmmbn p =>
    cases p with
    | none => rfl
    | some q =>
      show (handleTMMBN (some q) (s, info)).1.nackRequests = _
      unfold handleTMMBN
      cases hm : mapLookup s.receivedInfoMap q.senderSsrc <;>
        simp [hm, nackStep]
  | unknown => rfl

theorem rbiUpdate_maxJitter (ro : Bool) (nowCompact : Nat) (remote : Nat)
    (rb : ReportBlockPkt) (old : RTCPReportBlockInformation) :
    (rbiUpdate ro nowCompact remote rb old).remoteMaxJitter =
      max old.remoteMaxJitter rb.jitter := by
  unfold rbiUpdate
  by_cases hc : ro = false ∧ rb.lastSr ≠ 0
  · by_cases hj : rb.jitter > old.remoteMaxJitter
    · simp [hc, hj, updateRttStats_eq, max_eq_right (le_of_lt hj)]
    · simp [hc, hj, updateRttStats_eq, max_eq_left (not_lt.1 hj)]
  · by_cases hj : rb.jitter > old.remoteMaxJitter
    · simp [hc, hj, max_eq_right (le_of_lt hj)]
    · simp [hc, hj, max_eq_left (not_lt.1 hj)]

theorem rbiUpdate_maxRTT (ro : Bool) (nowCompact : Nat) (remote : Nat)
    (rb : ReportBlockPkt) (old : RTCPReportBlockInformation) :
    (rbiUpdate ro nowCompact remote rb old).maxRTT =
      if ro = false ∧ rb.lastSr ≠ 0
      then max old.maxRTT (rttSample nowCompact rb) else old.maxRTT := by
  unfold rbiUpdate
  by_cases hc : ro = false ∧ rb.lastSr ≠ 0
  · by_cases hm : rttSample nowCompact rb > old.maxRTT
    · by_cases hj : rb.jitter > old.remoteMaxJitter <;>
        simp [hc, hm, hj, updateRttStats_eq, max_eq_right (le_of_lt hm)]
    · by_cases hj : rb.jitter > old.remoteMaxJitter <;>
        simp [hc, hm, hj, updateRttStats_eq, max_eq_left (not_lt.1 hm)]
  · by_cases hj : rb.jitter > old.remoteMaxJitter <;> simp [hc, hj]

theorem rbiUpdate_maxima (ro : Bool) (nowCompact : Nat) (remote : Nat)
    (rb : ReportBlockPkt) (old : RTCPReportBlockInformation) :
    maximaOf (rbiUpdate ro nowCompact remote rb old) =
      capply (rbContrib ro nowCompact rb) (maximaOf old) := by
  unfold maximaOf capply rbContrib
  by_cases hc : ro = false ∧ rb.lastSr ≠ 0 <;>
    simp [hc, rbiUpdate_maxRTT, rbiUpdate_maxJitter]

theorem handleReportBlock_reg (nowMs : Int) (nowCompact : Nat) (remote : Nat)
    (rb : ReportBlockPkt) (si : RTCPReceiver × RTCPPacketInformation) :
    (handleReportBlock nowMs nowCompact remote rb si).1.registered_ssrcs =
      si.1.registered_ssrcs := by
  obtain ⟨s, info⟩ := si
  unfold handleReportBlock
  by_cases hreg : rb.sourceSsrc ∈ s.registered_ssrcs
  · by_cases he : rb.extendedHighSeqNum >
        ((lookup2 s.receivedReportBlockMap rb.sourceSsrc remote).getD
          RTCPReportBlockInformation.empty).remoteReceiveBlock.extendedHighSeqNum <;>
      simp [hreg, he]
  · simp [hreg]

theorem handleReportBlock_maxima (nowMs : Int) (nowCompact : Nat)
    (remote : Nat) (rb : ReportBlockPkt) (key : Nat × Nat)
    (si : RTCPReceiver × RTCPPacketInformation) :
    maximaAt (handleReportBlock nowMs nowCompact remote rb si).1 key =
      rbMaximaStep si.1.registered_ssrcs si.1.receiver_only nowCompact remote
        key rb (maximaAt si.1 key) := by
  obtain ⟨s, info⟩ := si
  by_cases hreg : rb.sourceSsrc ∈ s.registered_ssrcs
  · unfold maximaAt
    rw [handleReportBlock_map_pos nowMs nowCompact remote rb s info hreg]
    rw [lookup2_insert2]
    by_cases hkey : rb.sourceSsrc = key.1 ∧ remote = key.2
    · rw [if_pos hkey]
      unfold rbMaximaStep
      rw [if_pos ⟨hreg, hkey.1, hkey.2⟩]
      simp only [Option.map_some']
      rw [rbiUpdate_maxima]
      rw [← hkey.1, ← hkey.2]
      cases hl : lookup2 s.receivedReportBlockMap rb.sourceSsrc remote <;>
        simp [hl, maximaOf, pbot, RTCPReportBlockInformation.empty]
    · rw [if_neg hkey]
      unfold rbMaximaStep
      rw [if_neg (fun hcon => hkey ⟨hcon.2.1, hcon.2.2⟩)]
  · rw [handleReportBlock_neg nowMs nowCompact remote rb s info hreg]
    unfold rbMaximaStep
    rw [if_neg (fun hcon => hreg hcon.1)]

theorem rb_fold_maxima (nowMs : Int) (nowCompact : Nat) (remote : Nat)
    (key : Nat × Nat) (rbs : List ReportBlockPkt)
    (si : RTCPReceiver × RTCPPacketInformation) :
    maximaAt (rbs.foldl (fun si rb =>
      handleReportBlock nowMs nowCompact remote rb si) si).1 key =
      rbs.foldl (fun x rb => rbMaximaStep si.1.registered_ssrcs
        si.1.receiver_only nowCompact remote key rb x)
        (maximaAt si.1 key) := by
  induction rbs generalizing si with
  | nil => rfl
  | cons rb t ih =>
    simp only [List.foldl_cons]
    rw [ih]
    rw [handleReportBlock_maxima]
    rw [handleReportBlock_reg, handleReportBlock_ro]

theorem handleBlock_maxima (env : ClockEnv) (b : Block) (key : Nat × Nat)
    (si : RTCPReceiver × RTCPPacketInformation) :
    maximaAt (handleBlock env b si).1 key =
      maximaStep si.1.registered_ssrcs si.1.receiver_only env.nowCompact key b
        (maximaAt si.1 key) := by
  obtain ⟨s, info⟩ := si
  cases b with
  | sr p =>
    cases p with
    | none => rfl
    | some q =>
      show maximaAt (handleSenderReport env (some q) (s, info)).1 key = _
      unfold handleSenderReport
      obtain ⟨m, hm⟩ := ensureReceiveInfo_eq q.senderSsrc s
      simp only [hm]
      by_cases hC : s.remoteSSRC = q.senderSsrc
      · simp only [hC, eq_self_iff_true, if_true, ite_true]
        rw [rb_fold_maxima]
        simp [touchReceiveInfo, maximaAt, maximaStep]
      · simp only [hC, if_false, ite_false]
        rw [rb_fold_maxima]
        simp [touchReceiveInfo, maximaAt, maximaStep]
  | rr p =>
    cases p with
    | none => rfl
    | some q =>
      show maximaAt (handleReceiverReport env (some q) (s, info)).1 key = _
      unfold handleReceiverReport
      obtain ⟨m, hm⟩ := ensureReceiveInfo_eq q.senderSsrc s
      simp only [hm]
      rw [rb_fold_maxima]
      simp [touchReceiveInfo, maximaAt, maximaStep]
  | sdes p =>
    cases p with
    | none => rfl
    | some q =>
      show maximaAt (handleSDES (some q) (s, info)).1 key = _
      unfold handleSDES
      have hfold := foldl_preserve
        (fun (c : Nat × String) (s : RTCPReceiver) =>
          { s with receivedCnameMap :=
              mapInsert c.1 (truncCname c.2) s.receivedCnameMap })
        (fun s => maximaAt s key)
        (fun c s => rfl)
        q.chunks
      show maximaAt (q.chunks.foldl (fun s c =>
        { s with receivedCnameMap :=
            mapInsert c.1 (truncCname c.2) s.receivedCnameMap }) s) key = _
      rw [hfold]
      rfl
  | bye p =>
    cases p with
    | none => rfl
    | some q =>
      show maximaAt (handleBYE (some q) s) key = _
      unfold maximaAt maximaStep lookup2
      rw [handleBYE_rbMap q.senderSsrc s, mapLookup_map_value]
      cases ho : mapLookup s.receivedReportBlockMap key.1 <;>
        by_cases hk : q.senderSsrc = key.2 <;>
        simp [ho, hk, mapLookup_mapErase]
  | xr p =>
    cases p with
    | none => rfl
    | some q =>
      show maximaAt (handleXr env (some q) (s, info)).1 key = _
      unfold handleXr
      have hf1 := foldl_preserve
        (fun (r : Nat) si => handleXrReceiveReferenceTime env r si)
        (fun (si : RTCPReceiver × RTCPPacketInformation) =>
          maximaAt si.1 key)
        (fun r si => rfl)
        q.rrtrs
      have hf2 := foldl_preserve
        (fun (sub : List ReceiveTimeInfoPkt) si =>
          sub.foldl (fun si rti => handleXrDlrrReportBlock env rti si) si)
        (fun (si : RTCPReceiver × RTCPPacketInformation) =>
          maximaAt si.1 key)
        (fun sub si =>
          foldl_preserve
            (fun (rti : ReceiveTimeInfoPkt) si =>
              handleXrDlrrReportBlock env rti si)
            (fun (si : RTCPReceiver × RTCPPacketInformation) =>
              maximaAt si.1 key)
            (fun rti si => by
              obtain ⟨s', i'⟩ := si
              unfold handleXrDlrrReportBlock
              by_cases h1 : rti.ssrc ∈ s'.registered_ssrcs
              · by_cases h2 : s'.xr_rrtr_status = true
                · by_cases h3 : rti.lastRr = 0 <;>
                    simp [h1, h2, h3, maximaAt]
                · simp [h1, h2]
              · simp [h1])
            sub si)
        q.dlrrs
      rw [hf2, hf1]
      rfl
  | nack p =>
    cases p with
    | none => rfl
    | some q =>
      show maximaAt (handleNACK (some q) (s, info)).1 key = _
      unfold handleNACK
      by_cases h1 : s.receiver_only = true ∨ s.main_ssrc ≠ q.mediaSsrc
      · simp [h1, maximaStep]
      · by_cases h2 : q.packetIds ≠ [] <;>
          simp [h1, h2, maximaAt, maximaStep]
  | tmmbn p =>
    cases p with
    | none => rfl
    | some q =>
      show maximaAt (handleTMMBN (some q) (s, info)).1 key = _
      unfold handleTMMBN
      cases hm : mapLookup s.receivedInfoMap q.senderSsrc <;>
        simp [hm, maximaAt, maximaStep]
  | unknown => rfl

theorem handleBlock_receiverOnly (env : ClockEnv) (b : Block)
    (si : RTCPReceiver × RTCPPacketInformation) :
    (handleBlock env b si).1.receiver_only = si.1.receiver_only :=
  congrArg (fun t : Bool × Nat × Nat × List Nat => t.1)
    (handleBlock_consts env b si)

theorem handleBlock_mainSsrc (env : ClockEnv) (b : Block)
    (si : RTCPReceiver × RTCPPacketInformation) :
    (handleBlock env b si).1.main_ssrc = si.1.main_ssrc :=
  congrArg (fun t : Bool × Nat × Nat × List Nat => t.2.1)
    (handleBlock_consts env b si)

theorem handleBlock_remoteSSRC (env : ClockEnv) (b : Block)
    (si : RTCPReceiver × RTCPPacketInformation) :
    (handleBlock env b si).1.remoteSSRC = si.1.remoteSSRC :=
  congrArg (fun t : Bool × Nat × Nat × List Nat => t.2.2.1)
    (handleBlock_consts env b si)

theorem handleBlock_regSsrcs (env : ClockEnv) (b : Block)
    (si : RTCPReceiver × RTCPPacketInformation) :
    (handleBlock env b si).1.registered_ssrcs = si.1.registered_ssrcs :=
  congrArg (fun t : Bool × Nat × Nat × List Nat => t.2.2.2)
    (handleBlock_consts env b si)

theorem processBlocks_consts (env : ClockEnv) (bs : List (Option Block))
    (si : RTCPReceiver × RTCPPacketInformation) :
    constsOf (processBlocks env bs si).1 = constsOf si.1 := by
  induction bs generalizing si with
  | nil => rfl
  | cons ob rest ih =>
    obtain ⟨s, info⟩ := si
    cases ob with
    | none => rfl
    | some b =>
      simp only [processBlocks]
      rw [ih, handleBlock_consts]
      by_cases hf : s.first_packet_time_ms = -1 <;> simp [hf, constsOf]

theorem processBlocks_sender (env : ClockEnv) (bs : List (Option Block))
    (si : RTCPReceiver × RTCPPacketInformation) :
    senderTupleOf (processBlocks env bs si).1 =
      runFold (srStep si.1.remoteSSRC env) bs (senderTupleOf si.1) := by
  induction bs generalizing si with
  | nil => rfl
  | cons ob rest ih =>
    obtain ⟨s, info⟩ := si
    cases ob with
    | none => rfl
    | some b =>
      simp only [processBlocks, runFold]
      rw [ih, handleBlock_remoteSSRC, handleBlock_sender]
      by_cases hf : s.first_packet_time_ms = -1 <;> simp [hf, senderTupleOf]

theorem processBlocks_cname (env : ClockEnv) (k : Nat)
    (bs : List (Option Block))
    (si : RTCPReceiver × RTCPPacketInformation) :
    mapLookup (processBlocks env bs si).1.receivedCnameMap k =
      runFold (cnameStep k) bs (mapLookup si.1.receivedCnameMap k) := by
  induction bs generalizing si with
  | nil => rfl
  | cons ob rest ih =>
    obtain ⟨s, info⟩ := si
    cases ob with
    | none => rfl
    | some b =>
      simp only [processBlocks, runFold]
      rw [ih, handleBlock_cname]
      by_cases hf : s.first_packet_time_ms = -1 <;> simp [hf]

theorem processBlocks_maxima (env : ClockEnv) (key : Nat × Nat)
    (bs : List (Option Block))
    (si : RTCPReceiver × RTCPPacketInformation) :
    maximaAt (processBlocks env bs si).1 key =
      runFold (maximaStep si.1.registered_ssrcs si.1.receiver_only
        env.nowCompact key) bs (maximaAt si.1 key) := by
  induction bs generalizing si with
  | nil => rfl
  | cons ob rest ih =>
    obtain ⟨s, info⟩ := si
    cases ob with
    | none => rfl
    | some b =>
      simp only [processBlocks, runFold]
      rw [ih, handleBlock_regSsrcs, handleBlock_receiverOnly,
        handleBlock_maxima]
      by_cases hf : s.first_packet_time_ms = -1 <;> simp [hf, maximaAt]

theorem processBlocks_nack (env : ClockEnv) (bs : List (Option Block))
    (si : RTCPReceiver × RTCPPacketInformation) :
    (processBlocks env bs si).1.nackRequests =
      runFold (nackStep si.1.receiver_only si.1.main_ssrc) bs
        si.1.nackRequests := by
  induction bs generalizing si with
  | nil => rfl
  | cons ob rest ih =>
    obtain ⟨s, info⟩ := si
    cases ob with
    | none => rfl
    | some b =>
      simp only [processBlocks, runFold]
      rw [ih, handleBlock_receiverOnly, handleBlock_mainSsrc,
        handleBlock_nack]
      by_cases hf : s.first_packet_time_ms = -1 <;> simp [hf]

theorem warnUpdate_proj (now : Int) (s : RTCPReceiver) :
    senderTupleOf (warnUpdate now s) = senderTupleOf s ∧
    (warnUpdate now s).receivedCnameMap = s.receivedCnameMap ∧
    (∀ key, maximaAt (warnUpdate now s) key = maximaAt s key) ∧
    (warnUpdate now s).nackRequests = s.nackRequests ∧
    constsOf (warnUpdate now s) = constsOf s := by
  unfold warnUpdate
  by_cases h : now - s.last_skipped_packets_warning ≥
      kMaxWarningLogIntervalMs ∧ s.num_skipped_packets > 0 <;>
    simp [h, senderTupleOf, maximaAt, constsOf]

theorem parseState_consts (env : ClockEnv) (bs : List (Option Block))
    (s : RTCPReceiver) :
    constsOf (parseState env bs s) = constsOf s := by
  cases bs with
  | nil =>
    show constsOf (warnUpdate env.nowMs
      (processBlocks env [] (s, RTCPPacketInformation.init)).1) = _
    rw [(warnUpdate_proj _ _).2.2.2.2, processBlocks_consts]
  | cons ob rest =>
    cases ob with
    | none => rfl
    | some b =>
      show constsOf (warnUpdate env.nowMs
        (processBlocks env (some b :: rest)
          (s, RTCPPacketInformation.init)).1) = _
      rw [(warnUpdate_proj _ _).2.2.2.2, processBlocks_consts]

theorem parseState_sender (env : ClockEnv) (bs : List (Option Block))
    (s : RTCPReceiver) :
    senderTupleOf (parseState env bs s) =
      runFold (srStep s.remoteSSRC env) bs (senderTupleOf s) := by
  cases bs with
  | nil =>
    show senderTupleOf (warnUpdate env.nowMs
      (processBlocks env [] (s, RTCPPacketInformation.init)).1) = _
    rw [(warnUpdate_proj _ _).1, processBlocks_sender]
  | cons ob rest =>
    cases ob with
    | none => rfl
    | some b =>
      show senderTupleOf (warnUpdate env.nowMs
        (processBlocks env (some b :: rest)
          (s, RTCPPacketInformation.init)).1) = _
      rw [(warnUpdate_proj _ _).1, processBlocks_sender]

theorem parseState_cname (env : ClockEnv) (k : Nat)
    (bs : List (Option Block)) (s : RTCPReceiver) :
    mapLookup (parseState env bs s).receivedCnameMap k =
      runFold (cnameStep k) bs (mapLookup s.receivedCnameMap k) := by
  cases bs with
  | nil =>
    show mapLookup (warnUpdate env.nowMs
      (processBlocks env [] (s, RTCPPacketInformation.init)).1).receivedCnameMap
      k = _
    rw [(warnUpdate_proj _ _).2.1, processBlocks_cname]
  | cons ob rest =>
    cases ob with
    | none => rfl
    | some b =>
      show mapLookup (warnUpdate env.nowMs
        (processBlocks env (some b :: rest)
          (s, RTCPPacketInformation.init)).1).receivedCnameMap k = _
      rw [(warnUpdate_proj _ _).2.1, processBlocks_cname]

theorem parseState_maxima (env : ClockEnv) (key : Nat × Nat)
    (bs : List (Option Block)) (s : RTCPReceiver) :
    maximaAt (parseState env bs s) key =
      runFold (maximaStep s.registered_ssrcs s.receiver_only env.nowCompact
        key) bs (maximaAt s key) := by
  cases bs with
  | nil =>
    show maximaAt (warnUpdate env.nowMs
      (processBlocks env [] (s, RTCPPacketInformation.init)).1) key = _
    rw [(warnUpdate_proj _ _).2.2.1, processBlocks_maxima]
  | cons ob rest =>
    cases ob with
    | none => rfl
    | some b =>
      show maximaAt (warnUpdate env.nowMs
        (processBlocks env (some b :: rest)
          (s, RTCPPacketInformation.init)).1) key = _
      rw [(warnUpdate_proj _ _).2.2.1, processBlocks_maxima]

theorem parseState_nack (env : ClockEnv) (bs : List (Option Block))
    (s : RTCPReceiver) :
    (parseState env bs s).nackRequests =
      runFold (nackStep s.receiver_only s.main_ssrc) bs s.nackRequests := by
  cases bs with
  | nil =>
    show (warnUpdate env.nowMs
      (processBlocks env [] (s, RTCPPacketInformation.init)).1).nackRequests = _
    rw [(warnUpdate_proj _ _).2.2.2.1, processBlocks_nack]
  | cons ob rest =>
    cases ob with
    | none => rfl
    | some b =>
      show (warnUpdate env.nowMs
        (processBlocks env (some b :: rest)
          (s, RTCPPacketInformation.init)).1).nackRequests = _
      rw [(warnUpdate_proj _ _).2.2.2.1, processBlocks_nack]

/-- C8: feeding the same compound datagram twice through
`ParseCompoundPacket`, with the clock readings unchanged, leaves every
overwrite-style projection of the state — the remote sender-info triple,
every stored CNAME entry, and every per-(source, remote) report-block
maxima entry — in the same terminal state as after the first feed, and,
starting from a zero NACK counter, exactly doubles the accumulated total
NACK request count. -/
theorem double_feed_spec (env : ClockEnv) (bs : List (Option Block))
    (s : RTCPReceiver) (h0 : s.nackRequests = 0) :
    senderTupleOf (parseState env bs (parseState env bs s)) =
      senderTupleOf (parseState env bs s) ∧
    (∀ k, mapLookup
        (parseState env bs (parseState env bs s)).receivedCnameMap k =
      mapLookup (parseState env bs s).receivedCnameMap k) ∧
    (∀ key : Nat × Nat,
      maximaAt (parseState env bs (parseState env bs s)) key =
        maximaAt (parseState env bs s) key) ∧
    (parseState env bs (parseState env bs s)).nackRequests =
      2 * (parseState env bs s).nackRequests := by
  have hc := parseState_consts env bs s
  have hro : (parseState env bs s).receiver_only = s.receiver_only :=
    congrArg (fun t : Bool × Nat × Nat × List Nat => t.1) hc
  have hms : (parseState env bs s).main_ssrc = s.main_ssrc :=
    congrArg (fun t : Bool × Nat × Nat × List Nat => t.2.1) hc
  have hrs : (parseState env bs s).remoteSSRC = s.remoteSSRC :=
    congrArg (fun t : Bool × Nat × Nat × List Nat => t.2.2.1) hc
  have hrg : (parseState env bs s).registered_ssrcs = s.registered_ssrcs :=
    congrArg (fun t : Bool × Nat × Nat × List Nat => t.2.2.2) hc
  refine ⟨?_, ?_, ?_, ?_⟩
  · rw [parseState_sender env bs (parseState env bs s), hrs,
      parseState_sender env bs s]
    exact constOrId_idem _
      (constOrId_runFold _ (fun b => srStep_constOrId s.remoteSSRC env b) bs)
      (senderTupleOf s)
  · intro k
    rw [parseState_cname env k bs (parseState env bs s),
      parseState_cname env k bs s]
    exact constOrId_idem _
      (constOrId_runFold _ (fun b => cnameStep_constOrId k b) bs)
      (mapLookup s.receivedCnameMap k)
  · intro key
    rw [parseState_maxima env key bs (parseState env bs s), hrg, hro,
      parseState_maxima env key bs s]
    exact joinForm_idem _
      (joinForm_runFold _
        (fun b => maximaStep_joinForm s.registered_ssrcs s.receiver_only
          env.nowCompact key b) bs)
      (maximaAt s key)
  · obtain ⟨D, hD⟩ := nack_runFold_add s.receiver_only s.main_ssrc bs
    have h1 : (parseState env bs s).nackRequests = D := by
      rw [parseState_nack env bs s, hD]
      omega
    rw [parseState_nack env bs (parseState env bs s), hro, hms, hD, h1]
    omega

theorem double_feed_spec_witness :
    (RTCPReceiver.init false 0).nackRequests = 0 ∧
    (parseState exClock exNackDatagram (parseState exClock exNackDatagram
      (RTCPReceiver.init false 0))).nackRequests =
      2 * (parseState exClock exNackDatagram
        (RTCPReceiver.init false 0)).nackRequests ∧
    (parseState exClock exNackDatagram
      (RTCPReceiver.init false 0)).nackRequests = 2 :=
  ⟨rfl,
   (double_feed_spec exClock exNackDatagram
     (RTCPReceiver.init false 0) rfl).2.2.2,
   rfl⟩
